import Mathlib

/-!
Relay handlers of `server.js`.

A shallow embedding of the five Express route handlers of `src/server.js`.

* JavaScript values are the inductive type `JVal`.
* The runtime services the handlers call but do not define (`fetch`,
  `JSON.parse`, `encodeURIComponent`, the text of engine errors) are the fields
  of `Runtime`; every theorem holds for every runtime.
* A handler is a function from the runtime, the process environment and the
  parsed request body to an `Outcome`: the reply written with
  `res.status(..).json(..)` and the list of outbound calls it issued.
* `res.status(s).json(v)` is the record `{ status := s, body := v }`; a bare
  `res.json(v)` replies with Express's default status 200. Writing a reply
  throws, inside the `try` block it stands in, when the status is not in
  100..999. What Express then puts on the wire for that status and value is
  outside the model.
* `await fetch(url, options)` first evaluates its arguments: the template
  literal `Bearer ${key}` throws when `key` cannot be converted to a string,
  and then no call is issued.
* `req.body` is what `express.json()` leaves: an object or an array.
-/

set_option autoImplicit false

namespace Relay

/-! ## JavaScript values -/

/-- A JavaScript Number: a finite value (every finite double is a rational),
negative zero, NaN or an infinity. -/
inductive JsNumber where
  | finite (q : ℚ)
  | negZero
  | nan
  | posInf
  | negInf

/-- A JavaScript value as the handlers see it: what `JSON.parse` can return,
plus `undefined` (the result of reading a property that is not there). An
object is the list of its own properties. -/
inductive JVal where
  | undefined
  | null
  | bool (b : Bool)
  | num (n : JsNumber)
  | str (s : String)
  | arr (items : List JVal)
  | obj (fields : List (String × JVal))

/-- Numbers that are falsy: `0`, `-0` and `NaN`. -/
def JsNumber.falsy : JsNumber → Bool
  | .finite q => q == 0
  | .negZero => true
  | .nan => true
  | .posInf => false
  | .negInf => false

/-- JavaScript truthiness (`ToBoolean`): `undefined`, `null`, `false`, `0`,
`-0`, `NaN` and `''` are falsy, everything else is truthy. -/
def truthy : JVal → Bool
  | .undefined => false
  | .null => false
  | .bool b => b
  | .num n => !n.falsy
  | .str s => s != ""
  | .arr _ => true
  | .obj _ => true

/-- The operator `a || b`. -/
def jsOr (a b : JVal) : JVal :=
  if truthy a then a else b

/-- The test `Array.isArray(v)`. -/
def isArray : JVal → Bool
  | .arr _ => true
  | _ => false

/-- The test `v === undefined`. -/
def isUndefined : JVal → Bool
  | .undefined => true
  | _ => false

/-- The test `v == null` of a property read: `null` and `undefined` have no
properties and reading one throws a TypeError. -/
def nullish : JVal → Bool
  | .undefined => true
  | .null => true
  | _ => false

/-- Property read `v.name` for one of the names the handlers read (`apiKey`,
`prompt`, `data`, `b64_json`, `Heading`, ...), none of which is a built-in
property of strings, numbers, booleans or arrays: an object gives its own
property or `undefined`, every other value gives `undefined`. Reads of a
nullish value are either guarded by a truthiness test in the source or go
through `getProp`. -/
def prop (v : JVal) (name : String) : JVal :=
  match v with
  | .obj fields => (fields.lookup name).getD .undefined
  | _ => .undefined

mutual
/-- Whether string conversion of a value (`ToString`, as in a template literal)
succeeds. An object converts through `Object.prototype.toString` unless it has
an own property `toString`, which for a parsed value is never callable; an
array converts through `join`, which converts every element. -/
def stringCoercible : JVal → Bool
  | .arr items => itemsCoercible items
  | .obj fields => (fields.lookup "toString").isNone
  | _ => true
/-- Whether every element of an array can be converted to a string. -/
def itemsCoercible : List JVal → Bool
  | [] => true
  | x :: xs => stringCoercible x && itemsCoercible xs
end

/-- Element read `v[0]`, used by the source only after `Array.isArray(v)`. -/
def first (v : JVal) : JVal :=
  match v with
  | .arr (x :: _) => x
  | _ => .undefined

/-! ## Requests, replies and the runtime -/

/-- The value `req.body` left by `express.json()` (strict mode): an object or
an array. Destructuring it never throws. -/
inductive ReqBody where
  | object (fields : List (String × JVal))
  | array (items : List JVal)

/-- The request body as a JavaScript value. -/
def ReqBody.toJVal : ReqBody → JVal
  | .object fields => .obj fields
  | .array items => .arr items

/-- The destructuring read `const { name } = req.body`. -/
def ReqBody.field (b : ReqBody) (name : String) : JVal :=
  prop b.toJVal name

/-- The credentials in `process.env`; `none` is an unset variable. -/
structure Env where
  IMAGE_ROUTER_API_KEY : Option String
  OPEN_ROUTER_API_KEY : Option String
  SERPER_API_KEY : Option String
  PERPLEXITY_API_KEY : Option String

/-- The read `process.env.NAME`: a string, or `undefined` when unset. -/
def envVal : Option String → JVal
  | some s => .str s
  | none => .undefined

/-- An outbound header value: a fixed or environment string, or the template
literal `Bearer ${key}` kept with the value that is interpolated. -/
inductive HeaderValue where
  | text (s : String)
  | bearer (key : JVal)

/-- The arguments of one `fetch` call. `body` is the value handed to
`JSON.stringify`, `none` when the call has no body; `method` is `GET` when the
call gives no options. -/
structure OutboundRequest where
  url : String
  method : String
  headers : List (String × HeaderValue)
  body : Option JVal

/-- An upstream response: its status, its headers as
`response.headers.entries()` lists them, and the result of reading the body
(`response.text()`), which may itself reject with a message. -/
structure UpstreamResponse where
  status : Nat
  headers : List (String × String)
  text : Except String String

/-- What `await fetch(..)` does: reject with an error carrying a message, or
resolve to a response. -/
inductive FetchOutcome where
  | throws (message : String)
  | response (r : UpstreamResponse)

/-- The services of the JavaScript runtime, of `node-fetch` and of Express
that the handlers use.
* `fetch`: the upstream's answer to an outbound call that is issued.
* `jsonParse`: `JSON.parse`; `.error m` is a thrown SyntaxError with message `m`.
* `invalidJsonMessage`: the message of the error with which `response.json()`
  rejects when the body is not JSON, given the response and the parser's message.
* `encodeURIComponent`: applied to a value (string-coerced first); `.error m`
  is a thrown URIError.
* `nullReadMessage`: the message of the TypeError thrown by reading the named
  property of `null` or `undefined`.
* `coercionMessage`: the message of the TypeError thrown when the value cannot
  be converted to a string.
* `invalidStatusMessage`: the message of the RangeError thrown when a reply is
  written with a status outside 100..999. -/
structure Runtime where
  fetch : OutboundRequest → FetchOutcome
  jsonParse : String → Except String JVal
  invalidJsonMessage : UpstreamResponse → String → String
  encodeURIComponent : JVal → Except String String
  nullReadMessage : JVal → String → String
  coercionMessage : JVal → String
  invalidStatusMessage : Nat → String

/-- The reply written to the caller. -/
structure Reply where
  status : Nat
  body : JVal

/-- The observable result of one handler run. -/
structure Outcome where
  reply : Reply
  calls : List OutboundRequest

/-- The first header value of a call whose template literal cannot be
evaluated: the interpolated value of a `Bearer ${key}` that cannot be
converted to a string. -/
def OutboundRequest.uncoercible (req : OutboundRequest) : Option JVal :=
  req.headers.findSome? fun h =>
    match h.2 with
    | .bearer key => if stringCoercible key then none else some key
    | .text _ => none

/-- The expression `await fetch(url, options)`: evaluating the header values
throws a TypeError when one of them cannot be converted to a string;
otherwise the call is issued and the upstream's answer is its outcome. -/
def Runtime.awaitFetch (R : Runtime) (req : OutboundRequest) : FetchOutcome :=
  match req.uncoercible with
  | some key => .throws (R.coercionMessage key)
  | none => R.fetch req

/-- The outbound calls issued by evaluating `await fetch(url, options)`: the
call itself, or none when the evaluation of its header values throws. -/
def OutboundRequest.issued (req : OutboundRequest) : List OutboundRequest :=
  match req.uncoercible with
  | some _ => []
  | none => [req]

/-- The statement `res.status(status).json(body)`: throws a RangeError when
the status is not in 100..999, and otherwise writes the reply. -/
def Runtime.respond (R : Runtime) (status : Nat) (body : JVal) : Except String Reply :=
  if 100 ≤ status ∧ status ≤ 999 then .ok { status := status, body := body }
  else .error (R.invalidStatusMessage status)

/-- The call `response.json()` of `node-fetch`: read the body, then
`JSON.parse` it; a parse failure rejects with `invalidJsonMessage`. -/
def Runtime.responseJson (R : Runtime) (r : UpstreamResponse) : Except String JVal :=
  match r.text with
  | .error m => .error m
  | .ok t =>
    match R.jsonParse t with
    | .error e => .error (R.invalidJsonMessage r e)
    | .ok v => .ok v

/-- A property read `v.name` that is not guarded in the source: throws a
TypeError when `v` is `null` or `undefined`. -/
def Runtime.getProp (R : Runtime) (v : JVal) (name : String) : Except String JVal :=
  if nullish v then .error (R.nullReadMessage v name) else .ok (prop v name)

/-- The envelope `{ error: label, details: err.message }` of a catch block. -/
def errorEnvelope (label message : String) : JVal :=
  .obj [("error", .str label), ("details", .str message)]

/-- The headers every authenticated POST carries. -/
def jsonBearerHeaders (key : JVal) : List (String × HeaderValue) :=
  [("Content-Type", .text "application/json"), ("Authorization", .bearer key)]

/-! ## POST /myqa/image/generate -/

/-- The outbound call of the image route (lines 18-34). -/
def imageGenerateCall (env : Env) (body : ReqBody) : OutboundRequest :=
  let apiKey := body.field "apiKey"
  let prompt := body.field "prompt"
  let key := jsOr apiKey (envVal env.IMAGE_ROUTER_API_KEY)
  let model := JVal.str "google/gemini-2.0-flash-exp:free"
  let endpoint := "https://ir-api.myqa.cc/v1/openai/images/generations"
  { url := endpoint
    method := "POST"
    headers := jsonBearerHeaders key
    body := some (.obj [("prompt", prompt), ("model", model)]) }

/-- The test of line 49:
`data && Array.isArray(data.data) && data.data[0] && data.data[0].b64_json`. -/
def hasInlineImage (data : JVal) : Bool :=
  truthy data && isArray (prop data "data") && truthy (first (prop data "data"))
    && truthy (prop (first (prop data "data")) "b64_json")

/-- The `try` block of the image route (lines 24-58). -/
def imageGenerateTry (R : Runtime) (req : OutboundRequest) : Except String Reply :=
  match R.awaitFetch req with
  | .throws m => .error m
  | .response response =>
    match response.text with
    | .error m => .error m
    | .ok text =>
      match R.jsonParse text with
      | .error _ => .error "Non-JSON response from ir-api.myqa.cc"
      | .ok data =>
        if hasInlineImage data then
          R.respond 200
            (.obj [("type", .str "base64"),
                   ("data", prop (first (prop data "data")) "b64_json"),
                   ("mimeType", .str "image/png")])
        else
          R.respond response.status data

/-- The handler of `POST /myqa/image/generate`. -/
def imageGenerate (R : Runtime) (env : Env) (body : ReqBody) : Outcome :=
  let req := imageGenerateCall env body
  match imageGenerateTry R req with
  | .ok reply => { reply := reply, calls := req.issued }
  | .error message =>
    { reply := { status := 500, body := errorEnvelope "Proxy error" message }
      calls := req.issued }

/-! ## POST /myqa/chat/completions -/

/-- The outbound call of the MyQA chat route (lines 67-78). -/
def myqaChatCompletionsCall (env : Env) (body : ReqBody) : OutboundRequest :=
  let apiKey := body.field "apiKey"
  let targetModel := body.field "targetModel"
  let targetMessages := body.field "targetMessages"
  let key := jsOr apiKey (envVal env.IMAGE_ROUTER_API_KEY)
  { url := "https://ir-api.myqa.cc/v1/openai/chat/completions"
    method := "POST"
    headers := jsonBearerHeaders key
    body := some (.obj [("model", targetModel), ("messages", targetMessages)]) }

/-- The `try` block of the MyQA chat route (lines 71-89). -/
def myqaChatCompletionsTry (R : Runtime) (req : OutboundRequest) : Except String Reply :=
  match R.awaitFetch req with
  | .throws m => .error m
  | .response response =>
    match response.text with
    | .error m => .error m
    | .ok text =>
      match R.jsonParse text with
      | .error _ => .error "Non-JSON response from chat completions"
      | .ok data => R.respond response.status data

/-- The handler of `POST /myqa/chat/completions`. -/
def myqaChatCompletions (R : Runtime) (env : Env) (body : ReqBody) : Outcome :=
  let req := myqaChatCompletionsCall env body
  match myqaChatCompletionsTry R req with
  | .ok reply => { reply := reply, calls := req.issued }
  | .error message =>
    { reply := { status := 500, body := errorEnvelope "Proxy error" message }
      calls := req.issued }

/-! ## POST /openrouter/chat/completions -/

/-- The outbound call of the OpenRouter route (lines 98-108). -/
def openrouterChatCompletionsCall (env : Env) (body : ReqBody) : OutboundRequest :=
  let apiKey := body.field "apiKey"
  let targetModel := body.field "targetModel"
  let targetMessages := body.field "targetMessages"
  let key := jsOr apiKey (envVal env.OPEN_ROUTER_API_KEY)
  { url := "https://openrouter.ai/api/v1/chat/completions"
    method := "POST"
    headers := jsonBearerHeaders key
    body := some (.obj [("model", targetModel), ("messages", targetMessages)]) }

/-- The `try` block of the OpenRouter route (lines 101-110). -/
def openrouterChatCompletionsTry (R : Runtime) (req : OutboundRequest) : Except String Reply :=
  match R.awaitFetch req with
  | .throws m => .error m
  | .response response =>
    match R.responseJson response with
    | .error m => .error m
    | .ok data => R.respond response.status data

/-- The handler of `POST /openrouter/chat/completions`. -/
def openrouterChatCompletions (R : Runtime) (env : Env) (body : ReqBody) : Outcome :=
  let req := openrouterChatCompletionsCall env body
  match openrouterChatCompletionsTry R req with
  | .ok reply => { reply := reply, calls := req.issued }
  | .error message =>
    { reply := { status := 500, body := errorEnvelope "Proxy error" message }
      calls := req.issued }

/-! ## POST /search -/

/-- The primary provider's call (lines 122-129), made with the configured
`SERPER_API_KEY`. -/
def serperCall (serperKey : String) (body : ReqBody) : OutboundRequest :=
  let query := body.field "query"
  { url := "https://google.serper.dev/search"
    method := "POST"
    headers := [("Content-Type", .text "application/json"), ("X-API-KEY", .text serperKey)]
    body := some (.obj [("q", query), ("num", .num (.finite 5))]) }

/-- The fallback provider's call (lines 133-134): a bare `fetch(url)` with the
encoded query spliced into the URL. -/
def duckDuckGoCall (encodedQuery : String) : OutboundRequest :=
  { url := "https://api.duckduckgo.com/?q=" ++ encodedQuery
      ++ "&format=json&no_redirect=1&no_html=1"
    method := "GET"
    headers := []
    body := none }

/-- The reshaping of lines 136-140; each read of `ddg` throws when `ddg` is
`null`. -/
def organicResult (R : Runtime) (ddg : JVal) : Except String JVal :=
  match R.getProp ddg "Heading" with
  | .error m => .error m
  | .ok heading =>
    match R.getProp ddg "AbstractText" with
    | .error m => .error m
    | .ok abstractText =>
      match R.getProp ddg "AbstractURL" with
      | .error m => .error m
      | .ok abstractURL =>
        .ok (.obj [("organic", .arr [.obj [("title", heading),
                                           ("snippet", abstractText),
                                           ("link", abstractURL)]])])

/-- The primary branch of the `try` block (lines 122-130, 142). -/
def searchPrimary (R : Runtime) (serperKey : String) (body : ReqBody) :
    Except String Reply × List OutboundRequest :=
  let req := serperCall serperKey body
  match R.awaitFetch req with
  | .throws m => (.error m, req.issued)
  | .response r =>
    match R.responseJson r with
    | .error m => (.error m, req.issued)
    | .ok json => (R.respond 200 json, req.issued)

/-- The fallback branch of the `try` block (lines 133-142). -/
def searchFallback (R : Runtime) (body : ReqBody) :
    Except String Reply × List OutboundRequest :=
  let query := body.field "query"
  match R.encodeURIComponent query with
  | .error m => (.error m, [])
  | .ok q =>
    let req := duckDuckGoCall q
    match R.awaitFetch req with
    | .throws m => (.error m, req.issued)
    | .response r =>
      match R.responseJson r with
      | .error m => (.error m, req.issued)
      | .ok ddg =>
        match organicResult R ddg with
        | .error m => (.error m, req.issued)
        | .ok json => (R.respond 200 json, req.issued)

/-- The `try` block of the search route: `if (process.env.SERPER_API_KEY)`
selects the provider. -/
def searchTry (R : Runtime) (env : Env) (body : ReqBody) :
    Except String Reply × List OutboundRequest :=
  match env.SERPER_API_KEY with
  | some k => if truthy (.str k) then searchPrimary R k body else searchFallback R body
  | none => searchFallback R body

/-- The handler of `POST /search`. -/
def search (R : Runtime) (env : Env) (body : ReqBody) : Outcome :=
  match searchTry R env body with
  | (.ok reply, calls) => { reply := reply, calls := calls }
  | (.error message, calls) =>
    { reply := { status := 500, body := errorEnvelope "Search proxy error" message }
      calls := calls }

/-! ## POST /myqa/perplexity/search -/

/-- The outbound call of the Perplexity route (lines 168-184). -/
def perplexitySearchCall (apiKey : String) (messages stream : JVal) : OutboundRequest :=
  let perplexityPayload := JVal.obj
    [("model", .str "sonar"),
     ("messages", messages),
     ("stream", if !isUndefined stream then stream else .bool false)]
  { url := "https://api.perplexity.ai/chat/completions"
    method := "POST"
    headers := [("Accept", .text "application/json"),
                ("Content-Type", .text "application/json"),
                ("Authorization", .bearer (.str apiKey))]
    body := some perplexityPayload }

/-- The object `Object.fromEntries(response.headers.entries())`. -/
def headersObject (headers : List (String × String)) : JVal :=
  .obj (headers.map fun kv => (kv.1, JVal.str kv.2))

/-- The length test `messages.length === 0` on an array. -/
def isEmptyArray : JVal → Bool
  | .arr [] => true
  | _ => false

/-- The status of a response as a JavaScript number. -/
def statusNumber (status : Nat) : JVal :=
  .num (.finite status)

/-- The status `response.status || 502` of line 198. -/
def statusOr502 (status : Nat) : Nat :=
  if status != 0 then status else 502

/-- The diagnostic body of lines 199-203 for an upstream body that is not JSON. -/
def perplexityNonJsonBody (response : UpstreamResponse) (responseText : String) : JVal :=
  .obj
    [("error", .str ("Non-JSON response from Perplexity. Status: " ++ toString response.status)),
     ("details", .str "The Perplexity API did not return valid JSON. This might happen with 404s or other server errors."),
     ("perplexity_status", statusNumber response.status),
     ("perplexity_headers", headersObject response.headers),
     ("perplexity_raw_body", .str responseText)]

/-- The test of line 163:
`!messages || !Array.isArray(messages) || messages.length === 0`. -/
def invalidMessages (messages : JVal) : Bool :=
  !truthy messages || !isArray messages || isEmptyArray messages

/-- The `try` block of the Perplexity route (lines 152-208). -/
def perplexitySearchTry (R : Runtime) (env : Env) (body : ReqBody) :
    Except String Reply × List OutboundRequest :=
  let apiKey := envVal env.PERPLEXITY_API_KEY
  match env.PERPLEXITY_API_KEY with
  | none =>
    (R.respond 500
      (.obj [("error", .str "Configuration error: PERPLEXITY_API_KEY not set on server.")]), [])
  | some k =>
    if !truthy apiKey then
      (R.respond 500
        (.obj [("error", .str "Configuration error: PERPLEXITY_API_KEY not set on server.")]), [])
    else
      let messages := body.field "messages"
      let stream := body.field "stream"
      if invalidMessages messages then
        (R.respond 400
          (.obj [("error", .str "Invalid request: 'messages' array is required for Perplexity search.")]), [])
      else
        let req := perplexitySearchCall k messages stream
        match R.awaitFetch req with
        | .throws m => (.error m, req.issued)
        | .response response =>
          match response.text with
          | .error m => (.error m, req.issued)
          | .ok responseText =>
            match R.jsonParse responseText with
            | .error _ =>
              (R.respond (statusOr502 response.status)
                (perplexityNonJsonBody response responseText), req.issued)
            | .ok responseData => (R.respond response.status responseData, req.issued)

/-- The handler of `POST /myqa/perplexity/search`. -/
def perplexitySearch (R : Runtime) (env : Env) (body : ReqBody) : Outcome :=
  match perplexitySearchTry R env body with
  | (.ok reply, calls) => { reply := reply, calls := calls }
  | (.error message, calls) =>
    { reply := { status := 500
                 body := errorEnvelope "Perplexity proxy internal server error" message }
      calls := calls }

/-! ## Shapes named by the specification -/

/-- The inline image payload of a parsed upstream body, read off its shape: the
body is an object whose `data` property is an array, the first element of the
array is an object, and that object's `b64_json` property is a truthy value
(a non-empty string, but equally `true`, a non-zero number, an array or an
object). -/
def inlinePayload : JVal → Option JVal
  | .obj fields =>
    match fields.lookup "data" with
    | some (.arr (.obj item :: _)) =>
      match item.lookup "b64_json" with
      | some b => if truthy b then some b else none
      | none => none
    | _ => none
  | _ => none

/-- The inline image payload in the narrower sense of a non-empty `b64_json`
*string* carried by the first element of the array `data`. -/
def inlineBase64String (v : JVal) : Option String :=
  match inlinePayload v with
  | some (.str b) => some b
  | _ => none

/-- The reshaped reply body `{ type: 'base64', data: b, mimeType: 'image/png' }`. -/
def base64Body (b : JVal) : JVal :=
  .obj [("type", .str "base64"), ("data", b), ("mimeType", .str "image/png")]

/-- The reshaped fallback body `{ organic: [{ title, snippet, link }] }`. -/
def organicBody (title snippet link : JVal) : JVal :=
  .obj [("organic", .arr [.obj [("title", title), ("snippet", snippet), ("link", link)]])]

/-- Whether `needle` occurs in `hay` as a contiguous piece of text. -/
def mentions (needle hay : String) : Bool :=
  hay.toList.tails.any fun t => needle.toList.isPrefixOf t

/-- The credential is configured: the variable is set to the non-empty string `k`. -/
def configured (credential : Option String) (k : String) : Prop :=
  credential = some k ∧ k ≠ ""

/-- The credential is absent: the variable is unset or set to the empty string. -/
def absent (credential : Option String) : Prop :=
  credential = none ∨ credential = some ""

/-- The upstream answered the call `req` with `response`, and the body of the
response was read as `text`. -/
def answers (R : Runtime) (req : OutboundRequest) (response : UpstreamResponse)
    (text : String) : Prop :=
  R.awaitFetch req = .response response ∧ response.text = .ok text

/-- The outbound call `req` failed by raising an error with message `m`:
`await fetch(..)` threw, or the response arrived and reading its body rejected. -/
def failsWith (R : Runtime) (req : OutboundRequest) (m : String) : Prop :=
  R.awaitFetch req = .throws m ∨ ∃ r, R.awaitFetch req = .response r ∧ r.text = .error m

/-- The status is one a reply can be written with: an integer from 100 to 999. -/
def validStatus (status : Nat) : Prop :=
  100 ≤ status ∧ status ≤ 999

instance validStatus.decidable (status : Nat) : Decidable (validStatus status) :=
  inferInstanceAs (Decidable (100 ≤ status ∧ status ≤ 999))

/-- The body of the configuration-error reply. -/
def configurationErrorBody : JVal :=
  .obj [("error", .str "Configuration error: PERPLEXITY_API_KEY not set on server.")]

/-- The text of the validation error. -/
def invalidMessagesText : String :=
  "Invalid request: 'messages' array is required for Perplexity search."

/-! ## Values for the worked examples -/

/-- A runtime in which the upstream gives the same answer to every call and
`JSON.parse` knows the texts of `table` (each paired with the value the real
parser returns for it) and rejects every other text. `encodeURIComponent` is
given for `undefined` and for strings of unreserved characters, which it
leaves as they are; the TypeError text is the one of V8. -/
def exampleRuntime (answer : FetchOutcome) (table : List (String × JVal)) : Runtime :=
  { fetch := fun _ => answer
    jsonParse := fun t =>
      match table.lookup t with
      | some v => .ok v
      | none => .error "Unexpected token < in JSON at position 0"
    invalidJsonMessage := fun _ e => "invalid json response body reason: " ++ e
    encodeURIComponent := fun v =>
      match v with
      | .str s => .ok s
      | _ => .ok "undefined"
    nullReadMessage := fun _ name =>
      "Cannot read properties of null (reading '" ++ name ++ "')"
    coercionMessage := fun _ => "Cannot convert object to primitive value"
    invalidStatusMessage := fun status => "Invalid status code: " ++ toString status }

/-- An upstream response with the given status and body text and no headers. -/
def exampleResponse (status : Nat) (text : String) : UpstreamResponse :=
  { status := status, headers := [], text := .ok text }

/-- An environment with no credential set. -/
def emptyEnv : Env :=
  { IMAGE_ROUTER_API_KEY := none
    OPEN_ROUTER_API_KEY := none
    SERPER_API_KEY := none
    PERPLEXITY_API_KEY := none }

/-- An environment in which only PERPLEXITY_API_KEY is set. -/
def perplexityEnv : Env :=
  { emptyEnv with PERPLEXITY_API_KEY := some "pplx-key" }

/-- An environment in which the search and Perplexity credentials are set. -/
def searchEnv : Env :=
  { emptyEnv with SERPER_API_KEY := some "serper-key", PERPLEXITY_API_KEY := some "pplx-key" }

/-- An environment in which only IMAGE_ROUTER_API_KEY is set. -/
def imageEnv : Env :=
  { emptyEnv with IMAGE_ROUTER_API_KEY := some "server-key" }

/-- The JSON text `{"data":[{"b64_json":true}]}`. -/
def booleanPayloadText : String :=
  "\x7b\"data\":[\x7b\"b64_json\":true\x7d]\x7d"

/-- The value of `booleanPayloadText`: `b64_json` is the boolean `true`. -/
def booleanPayloadBody : JVal :=
  .obj [("data", .arr [.obj [("b64_json", .bool true)]])]

/-- The JSON text `{"data":[{"b64_json":"iVBORw0KGgo="}]}`. -/
def imagePayloadText : String :=
  "\x7b\"data\":[\x7b\"b64_json\":\"iVBORw0KGgo=\"\x7d]\x7d"

/-- The value of `imagePayloadText`: an inline image string. -/
def imagePayloadBody : JVal :=
  .obj [("data", .arr [.obj [("b64_json", .str "iVBORw0KGgo=")]])]

/-- The JSON text `{"error":"rate"}`. -/
def rateLimitText : String :=
  "\x7b\"error\":\"rate\"\x7d"

/-- The value of `rateLimitText`. -/
def rateLimitBody : JVal :=
  .obj [("error", .str "rate")]

/-- The JSON text `{"Heading":"Lean","AbstractText":"A prover","AbstractURL":"https://lean-lang.org"}`. -/
def instantAnswerText : String :=
  "\x7b\"Heading\":\"Lean\",\"AbstractText\":\"A prover\",\"AbstractURL\":\"https://lean-lang.org\"\x7d"

/-- The value of `instantAnswerText`. -/
def instantAnswerBody : JVal :=
  .obj [("Heading", .str "Lean"), ("AbstractText", .str "A prover"),
        ("AbstractURL", .str "https://lean-lang.org")]

/-- A request body whose `apiKey` is the object `{"toString": null}`. -/
def uncoercibleKeyBody : ReqBody :=
  .object [("apiKey", .obj [("toString", .null)]), ("prompt", .str "a cat")]

/-- An upstream answer with the status line `099` and an HTML page. -/
def status99Html : UpstreamResponse :=
  { status := 99, headers := [], text := .ok "<html>down</html>" }

/-- An upstream 503 answered with an HTML page. -/
def htmlResponse : UpstreamResponse :=
  { status := 503, headers := [("content-type", "text/html")], text := .ok "<html>down</html>" }

/-- A request body with a model, one user message and `stream: true`. -/
def oneMessageBody : ReqBody :=
  .object [("model", .str "gpt-4"),
           ("messages", .arr [.obj [("role", .str "user"), ("content", .str "hi")]]),
           ("stream", .bool true)]

/-- A request body with a search query. -/
def queryBody : ReqBody :=
  .object [("query", .str "lean")]

/-! ## Lemmas on values -/

theorem truthy_obj (fields : List (String × JVal)) : truthy (.obj fields) = true := rfl

theorem truthy_arr (items : List JVal) : truthy (.arr items) = true := rfl

theorem truthy_undefined : truthy .undefined = false := rfl

theorem truthy_null : truthy .null = false := rfl

theorem truthy_str (s : String) (h : s ≠ "") : truthy (.str s) = true := by
  simp [truthy, h]

theorem invalidMessages_cons (m : JVal) (ms : List JVal) :
    invalidMessages (.arr (m :: ms)) = false := rfl

theorem respond_valid (R : Runtime) (status : Nat) (body : JVal) (h : validStatus status) :
    R.respond status body = .ok { status := status, body := body } := by
  unfold validStatus at h
  simp [Runtime.respond, h]

theorem respond_invalid (R : Runtime) (status : Nat) (body : JVal) (h : ¬ validStatus status) :
    R.respond status body = .error (R.invalidStatusMessage status) := by
  unfold validStatus at h
  simp only [Runtime.respond, if_neg h]

theorem respond_200 (R : Runtime) (body : JVal) :
    R.respond 200 body = .ok { status := 200, body := body } :=
  respond_valid R 200 body ⟨by decide, by decide⟩

theorem respond_400 (R : Runtime) (body : JVal) :
    R.respond 400 body = .ok { status := 400, body := body } :=
  respond_valid R 400 body ⟨by decide, by decide⟩

theorem respond_500 (R : Runtime) (body : JVal) :
    R.respond 500 body = .ok { status := 500, body := body } :=
  respond_valid R 500 body ⟨by decide, by decide⟩

theorem statusOr502_eq (status : Nat) :
    statusOr502 status = if status = 0 then 502 else status := by
  by_cases h : status = 0 <;> simp [statusOr502, h]

theorem issued_of_response (R : Runtime) (req : OutboundRequest) (r : UpstreamResponse)
    (h : R.awaitFetch req = .response r) : req.issued = [req] := by
  unfold Runtime.awaitFetch at h
  unfold OutboundRequest.issued
  cases hu : req.uncoercible with
  | none => rfl
  | some key => simp [hu] at h

theorem issued_of_answers (R : Runtime) (req : OutboundRequest) (r : UpstreamResponse)
    (text : String) (h : answers R req r text) : req.issued = [req] :=
  issued_of_response R req r h.1

theorem uncoercible_of_bearer (req : OutboundRequest) (key : JVal)
    (h : req.headers = jsonBearerHeaders key) :
    req.uncoercible = if stringCoercible key then none else some key := by
  cases hc : stringCoercible key <;>
    simp [OutboundRequest.uncoercible, h, jsonBearerHeaders, List.findSome?, hc]

theorem jsOr_of_uncoercible (v w : JVal) (h : stringCoercible v = false) : jsOr v w = v := by
  cases v <;> simp_all [jsOr, truthy, stringCoercible]

theorem serperCall_uncoercible (k : String) (body : ReqBody) :
    (serperCall k body).uncoercible = none := by
  simp [OutboundRequest.uncoercible, serperCall, List.findSome?]

theorem duckDuckGoCall_uncoercible (q : String) : (duckDuckGoCall q).uncoercible = none := by
  simp [OutboundRequest.uncoercible, duckDuckGoCall]

theorem perplexitySearchCall_uncoercible (k : String) (messages stream : JVal) :
    (perplexitySearchCall k messages stream).uncoercible = none := by
  simp [OutboundRequest.uncoercible, perplexitySearchCall, List.findSome?, stringCoercible]

theorem jsOr_coercible (apiKey : JVal) (credential : Option String) :
    stringCoercible (jsOr apiKey (envVal credential)) = stringCoercible apiKey := by
  unfold jsOr
  cases apiKey <;> cases credential <;> simp [truthy, envVal, stringCoercible] <;>
    split <;> simp [stringCoercible]

theorem nullish_eq_false (d : JVal) (h1 : d ≠ .null) (h2 : d ≠ .undefined) :
    nullish d = false := by
  cases d <;> simp_all [nullish]

theorem hasInlineImage_eq_isSome (data : JVal) :
    hasInlineImage data = (inlinePayload data).isSome := by
  unfold hasInlineImage inlinePayload
  cases data with
  | obj fields =>
    simp only [prop, truthy_obj, Bool.true_and]
    cases h : fields.lookup "data" with
    | none => simp [isArray]
    | some d =>
      cases d with
      | arr items =>
        cases items with
        | nil => simp [isArray, first, truthy_undefined]
        | cons x rest =>
          cases x with
          | obj item =>
            simp only [Option.getD_some, isArray, first, truthy_obj, prop, Bool.true_and]
            cases hb : item.lookup "b64_json" with
            | none => simp [truthy_undefined]
            | some b => cases hv : truthy b <;> simp [hv]
          | undefined => simp [isArray, first, truthy_undefined]
          | null => simp [isArray, first, truthy_null]
          | bool c => simp [isArray, first, prop, truthy_undefined]
          | num n => simp [isArray, first, prop, truthy_undefined]
          | str t => simp [isArray, first, prop, truthy_undefined]
          | arr ys => simp [isArray, first, prop, truthy_undefined]
      | _ => simp [isArray]
  | undefined => simp [truthy_undefined]
  | null => simp [truthy_null]
  | _ => simp [prop, isArray]

theorem inlinePayload_eq_prop (data b : JVal) (h : inlinePayload data = some b) :
    prop (first (prop data "data")) "b64_json" = b := by
  unfold inlinePayload at h
  cases data with
  | obj fields =>
    simp only at h
    cases hd : fields.lookup "data" with
    | none => simp [hd] at h
    | some d =>
      cases d with
      | arr items =>
        cases items with
        | nil => simp [hd] at h
        | cons x rest =>
          cases x with
          | obj item =>
            simp only [hd] at h
            cases hb : item.lookup "b64_json" with
            | none => simp [hb] at h
            | some v =>
              simp only [hb] at h
              by_cases hv : truthy v = true
              · simp [hv] at h
                simp [prop, first, hd, hb, h]
              · simp [hv] at h
          | _ => simp [hd] at h
      | _ => simp [hd] at h
  | _ => simp at h

/-! ## Lemmas on the `try` blocks -/

theorem imageGenerateTry_fails (R : Runtime) (req : OutboundRequest) (m : String)
    (h : failsWith R req m) : imageGenerateTry R req = .error m := by
  rcases h with h | ⟨r, h, ht⟩ <;> simp [imageGenerateTry, h, *]

theorem imageGenerateTry_nonJson (R : Runtime) (req : OutboundRequest)
    (response : UpstreamResponse) (text e : String) (ha : answers R req response text)
    (hp : R.jsonParse text = .error e) :
    imageGenerateTry R req = .error "Non-JSON response from ir-api.myqa.cc" := by
  simp [imageGenerateTry, ha.1, ha.2, hp]

theorem imageGenerateTry_parsed (R : Runtime) (req : OutboundRequest)
    (response : UpstreamResponse) (text : String) (data : JVal)
    (ha : answers R req response text) (hp : R.jsonParse text = .ok data) :
    imageGenerateTry R req =
      if hasInlineImage data then
        .ok { status := 200
              body := base64Body (prop (first (prop data "data")) "b64_json") }
      else R.respond response.status data := by
  simp [imageGenerateTry, ha.1, ha.2, hp, base64Body, respond_200]

theorem myqaChatCompletionsTry_fails (R : Runtime) (req : OutboundRequest) (m : String)
    (h : failsWith R req m) : myqaChatCompletionsTry R req = .error m := by
  rcases h with h | ⟨r, h, ht⟩ <;> simp [myqaChatCompletionsTry, h, *]

theorem myqaChatCompletionsTry_nonJson (R : Runtime) (req : OutboundRequest)
    (response : UpstreamResponse) (text e : String) (ha : answers R req response text)
    (hp : R.jsonParse text = .error e) :
    myqaChatCompletionsTry R req = .error "Non-JSON response from chat completions" := by
  simp [myqaChatCompletionsTry, ha.1, ha.2, hp]

theorem myqaChatCompletionsTry_parsed (R : Runtime) (req : OutboundRequest)
    (response : UpstreamResponse) (text : String) (data : JVal)
    (ha : answers R req response text) (hp : R.jsonParse text = .ok data) :
    myqaChatCompletionsTry R req = R.respond response.status data := by
  simp [myqaChatCompletionsTry, ha.1, ha.2, hp]

theorem openrouterChatCompletionsTry_fails (R : Runtime) (req : OutboundRequest) (m : String)
    (h : failsWith R req m) : openrouterChatCompletionsTry R req = .error m := by
  rcases h with h | ⟨r, h, ht⟩ <;>
    simp [openrouterChatCompletionsTry, Runtime.responseJson, h, *]

theorem openrouterChatCompletionsTry_nonJson (R : Runtime) (req : OutboundRequest)
    (response : UpstreamResponse) (text e : String) (ha : answers R req response text)
    (hp : R.jsonParse text = .error e) :
    openrouterChatCompletionsTry R req = .error (R.invalidJsonMessage response e) := by
  simp [openrouterChatCompletionsTry, Runtime.responseJson, ha.1, ha.2, hp]

theorem openrouterChatCompletionsTry_parsed (R : Runtime) (req : OutboundRequest)
    (response : UpstreamResponse) (text : String) (data : JVal)
    (ha : answers R req response text) (hp : R.jsonParse text = .ok data) :
    openrouterChatCompletionsTry R req = R.respond response.status data := by
  simp [openrouterChatCompletionsTry, Runtime.responseJson, ha.1, ha.2, hp]

theorem searchTry_configured (R : Runtime) (env : Env) (body : ReqBody) (k : String)
    (hk : configured env.SERPER_API_KEY k) :
    searchTry R env body = searchPrimary R k body := by
  simp [searchTry, hk.1, truthy_str k hk.2]

theorem searchTry_absent (R : Runtime) (env : Env) (body : ReqBody)
    (hk : absent env.SERPER_API_KEY) :
    searchTry R env body = searchFallback R body := by
  rcases hk with h | h <;> simp [searchTry, h, truthy]

theorem searchPrimary_fails (R : Runtime) (k : String) (body : ReqBody) (m : String)
    (h : failsWith R (serperCall k body) m) :
    searchPrimary R k body = (.error m, [serperCall k body]) := by
  rcases h with h | ⟨r, h, ht⟩ <;>
    simp [searchPrimary, Runtime.responseJson, OutboundRequest.issued,
      serperCall_uncoercible, h, *]

theorem searchPrimary_nonJson (R : Runtime) (k : String) (body : ReqBody)
    (response : UpstreamResponse) (text e : String)
    (ha : answers R (serperCall k body) response text) (hp : R.jsonParse text = .error e) :
    searchPrimary R k body
      = (.error (R.invalidJsonMessage response e), [serperCall k body]) := by
  simp [searchPrimary, Runtime.responseJson, OutboundRequest.issued,
    serperCall_uncoercible, ha.1, ha.2, hp]

theorem searchPrimary_parsed (R : Runtime) (k : String) (body : ReqBody)
    (response : UpstreamResponse) (text : String) (json : JVal)
    (ha : answers R (serperCall k body) response text) (hp : R.jsonParse text = .ok json) :
    searchPrimary R k body = (.ok { status := 200, body := json }, [serperCall k body]) := by
  simp [searchPrimary, Runtime.responseJson, OutboundRequest.issued,
    serperCall_uncoercible, respond_200, ha.1, ha.2, hp]

theorem searchPrimary_calls (R : Runtime) (k : String) (body : ReqBody) :
    (searchPrimary R k body).2 = [serperCall k body] := by
  simp only [searchPrimary, OutboundRequest.issued, serperCall_uncoercible]
  split
  · rfl
  · split <;> rfl

theorem searchFallback_unencodable (R : Runtime) (body : ReqBody) (m : String)
    (hq : R.encodeURIComponent (body.field "query") = .error m) :
    searchFallback R body = (.error m, []) := by
  simp [searchFallback, hq]

theorem searchFallback_fails (R : Runtime) (body : ReqBody) (q m : String)
    (hq : R.encodeURIComponent (body.field "query") = .ok q)
    (h : failsWith R (duckDuckGoCall q) m) :
    searchFallback R body = (.error m, [duckDuckGoCall q]) := by
  rcases h with h | ⟨r, h, ht⟩ <;>
    simp [searchFallback, Runtime.responseJson, OutboundRequest.issued,
      duckDuckGoCall_uncoercible, hq, h, *]

theorem searchFallback_nonJson (R : Runtime) (body : ReqBody) (q : String)
    (response : UpstreamResponse) (text e : String)
    (hq : R.encodeURIComponent (body.field "query") = .ok q)
    (ha : answers R (duckDuckGoCall q) response text) (hp : R.jsonParse text = .error e) :
    searchFallback R body
      = (.error (R.invalidJsonMessage response e), [duckDuckGoCall q]) := by
  simp [searchFallback, Runtime.responseJson, OutboundRequest.issued,
    duckDuckGoCall_uncoercible, hq, ha.1, ha.2, hp]

theorem searchFallback_parsed (R : Runtime) (body : ReqBody) (q : String)
    (response : UpstreamResponse) (text : String) (ddg : JVal)
    (hq : R.encodeURIComponent (body.field "query") = .ok q)
    (ha : answers R (duckDuckGoCall q) response text) (hp : R.jsonParse text = .ok ddg)
    (hd : nullish ddg = false) :
    searchFallback R body
      = (.ok { status := 200
               body := organicBody (prop ddg "Heading") (prop ddg "AbstractText")
                 (prop ddg "AbstractURL") }, [duckDuckGoCall q]) := by
  simp [searchFallback, Runtime.responseJson, OutboundRequest.issued,
    duckDuckGoCall_uncoercible, respond_200, hq, ha.1, ha.2, hp, organicResult,
    Runtime.getProp, hd, organicBody]

theorem searchFallback_nullish (R : Runtime) (body : ReqBody) (q : String)
    (response : UpstreamResponse) (text : String) (ddg : JVal)
    (hq : R.encodeURIComponent (body.field "query") = .ok q)
    (ha : answers R (duckDuckGoCall q) response text) (hp : R.jsonParse text = .ok ddg)
    (hd : nullish ddg = true) :
    searchFallback R body
      = (.error (R.nullReadMessage ddg "Heading"), [duckDuckGoCall q]) := by
  simp [searchFallback, Runtime.responseJson, OutboundRequest.issued,
    duckDuckGoCall_uncoercible, hq, ha.1, ha.2, hp, organicResult, Runtime.getProp, hd]

theorem searchFallback_calls (R : Runtime) (body : ReqBody) (q : String)
    (hq : R.encodeURIComponent (body.field "query") = .ok q) :
    (searchFallback R body).2 = [duckDuckGoCall q] := by
  simp only [searchFallback, hq, OutboundRequest.issued, duckDuckGoCall_uncoercible]
  split
  · rfl
  · split
    · rfl
    · split <;> rfl

theorem perplexitySearchTry_absent (R : Runtime) (env : Env) (body : ReqBody)
    (h : absent env.PERPLEXITY_API_KEY) :
    perplexitySearchTry R env body
      = (.ok { status := 500, body := configurationErrorBody }, []) := by
  rcases h with h | h <;>
    simp [perplexitySearchTry, h, envVal, truthy, configurationErrorBody, respond_500]

theorem perplexitySearchTry_invalid (R : Runtime) (env : Env) (body : ReqBody) (k : String)
    (hk : configured env.PERPLEXITY_API_KEY k)
    (hm : invalidMessages (body.field "messages") = true) :
    perplexitySearchTry R env body
      = (.ok { status := 400, body := .obj [("error", .str invalidMessagesText)] }, []) := by
  simp [perplexitySearchTry, hk.1, envVal, truthy_str k hk.2, hm, invalidMessagesText,
    respond_400]

theorem perplexitySearchTry_valid (R : Runtime) (env : Env) (body : ReqBody) (k : String)
    (m : JVal) (ms : List JVal) (hk : configured env.PERPLEXITY_API_KEY k)
    (hm : body.field "messages" = .arr (m :: ms)) :
    perplexitySearchTry R env body =
      match R.awaitFetch (perplexitySearchCall k (.arr (m :: ms)) (body.field "stream")) with
      | .throws e =>
        (.error e, [perplexitySearchCall k (.arr (m :: ms)) (body.field "stream")])
      | .response response =>
        match response.text with
        | .error e =>
          (.error e, [perplexitySearchCall k (.arr (m :: ms)) (body.field "stream")])
        | .ok responseText =>
          match R.jsonParse responseText with
          | .error _ =>
            (R.respond (statusOr502 response.status)
                (perplexityNonJsonBody response responseText),
              [perplexitySearchCall k (.arr (m :: ms)) (body.field "stream")])
          | .ok responseData =>
            (R.respond response.status responseData,
              [perplexitySearchCall k (.arr (m :: ms)) (body.field "stream")]) := by
  simp [perplexitySearchTry, hk.1, envVal, truthy_str k hk.2, hm, invalidMessages_cons,
    OutboundRequest.issued, perplexitySearchCall_uncoercible]

theorem perplexitySearchTry_fails (R : Runtime) (env : Env) (body : ReqBody) (k : String)
    (m : JVal) (ms : List JVal) (e : String) (hk : configured env.PERPLEXITY_API_KEY k)
    (hm : body.field "messages" = .arr (m :: ms))
    (h : failsWith R (perplexitySearchCall k (.arr (m :: ms)) (body.field "stream")) e) :
    perplexitySearchTry R env body
      = (.error e, [perplexitySearchCall k (.arr (m :: ms)) (body.field "stream")]) := by
  rw [perplexitySearchTry_valid R env body k m ms hk hm]
  rcases h with h | ⟨r, h, ht⟩ <;> simp [h, *]

theorem perplexitySearchTry_nonJson (R : Runtime) (env : Env) (body : ReqBody) (k : String)
    (m : JVal) (ms : List JVal) (response : UpstreamResponse) (text e : String)
    (hk : configured env.PERPLEXITY_API_KEY k)
    (hm : body.field "messages" = .arr (m :: ms))
    (ha : answers R (perplexitySearchCall k (.arr (m :: ms)) (body.field "stream"))
      response text)
    (hp : R.jsonParse text = .error e) :
    perplexitySearchTry R env body
      = (R.respond (statusOr502 response.status) (perplexityNonJsonBody response text),
          [perplexitySearchCall k (.arr (m :: ms)) (body.field "stream")]) := by
  rw [perplexitySearchTry_valid R env body k m ms hk hm]
  simp [ha.1, ha.2, hp]

theorem perplexitySearchTry_parsed (R : Runtime) (env : Env) (body : ReqBody) (k : String)
    (m : JVal) (ms : List JVal) (response : UpstreamResponse) (text : String) (v : JVal)
    (hk : configured env.PERPLEXITY_API_KEY k)
    (hm : body.field "messages" = .arr (m :: ms))
    (ha : answers R (perplexitySearchCall k (.arr (m :: ms)) (body.field "stream"))
      response text)
    (hp : R.jsonParse text = .ok v) :
    perplexitySearchTry R env body
      = (R.respond response.status v,
          [perplexitySearchCall k (.arr (m :: ms)) (body.field "stream")]) := by
  rw [perplexitySearchTry_valid R env body k m ms hk hm]
  simp [ha.1, ha.2, hp]

theorem perplexitySearchTry_calls (R : Runtime) (env : Env) (body : ReqBody) (k : String)
    (m : JVal) (ms : List JVal) (hk : configured env.PERPLEXITY_API_KEY k)
    (hm : body.field "messages" = .arr (m :: ms)) :
    (perplexitySearchTry R env body).2
      = [perplexitySearchCall k (.arr (m :: ms)) (body.field "stream")] := by
  rw [perplexitySearchTry_valid R env body k m ms hk hm]
  split
  · rfl
  · split
    · rfl
    · split <;> rfl

theorem invalidMessages_of_shape (v : JVal)
    (h : v = .undefined ∨ isArray v = false ∨ v = .arr []) : invalidMessages v = true := by
  unfold invalidMessages
  rcases h with h | h | h
  · simp [h, truthy]
  · simp [h]
  · simp [h, isEmptyArray]

/-! ## Lemmas on the calls of the credential routes -/

theorem issued_of_bearer (req : OutboundRequest) (apiKey : JVal) (credential : Option String)
    (h : req.headers = jsonBearerHeaders (jsOr apiKey (envVal credential))) :
    req.issued = if stringCoercible apiKey then [req] else [] := by
  unfold OutboundRequest.issued
  rw [uncoercible_of_bearer req _ h, jsOr_coercible]
  cases stringCoercible apiKey <;> simp

theorem awaitFetch_of_uncoercible (R : Runtime) (req : OutboundRequest) (apiKey : JVal)
    (credential : Option String)
    (h : req.headers = jsonBearerHeaders (jsOr apiKey (envVal credential)))
    (hc : stringCoercible apiKey = false) :
    R.awaitFetch req = .throws (R.coercionMessage apiKey) := by
  unfold Runtime.awaitFetch
  rw [uncoercible_of_bearer req _ h, jsOr_coercible, jsOr_of_uncoercible apiKey _ hc]
  simp [hc]

theorem imageGenerate_calls (R : Runtime) (env : Env) (body : ReqBody) :
    (imageGenerate R env body).calls = (imageGenerateCall env body).issued := by
  simp only [imageGenerate]
  split <;> rfl

theorem myqaChatCompletions_calls (R : Runtime) (env : Env) (body : ReqBody) :
    (myqaChatCompletions R env body).calls = (myqaChatCompletionsCall env body).issued := by
  simp only [myqaChatCompletions]
  split <;> rfl

theorem openrouterChatCompletions_calls (R : Runtime) (env : Env) (body : ReqBody) :
    (openrouterChatCompletions R env body).calls
      = (openrouterChatCompletionsCall env body).issued := by
  simp only [openrouterChatCompletions]
  split <;> rfl

/-! ## The image route: reshaping and pass-through -/

/-- C1 (amended). On POST /myqa/image/generate, for every upstream status `s`
and every upstream body that parses as JSON: when the parsed value is an
object whose `data` is an array whose first element is an object with a truthy
`b64_json` value `b` (every non-empty string, and also `true`, a non-zero
number, an array or an object), the reply is exactly
`{type: "base64", data: b, mimeType: "image/png"}` with status 200 whatever
`s` is; for every other parseable body the reply body is the parsed value
unchanged and the reply status is `s` when `s` is in 100..999, and the reply
is 500 with `{error: "Proxy error", details}` when it is not. -/
theorem imageGenerate_reply (R : Runtime) (env : Env) (body : ReqBody)
    (response : UpstreamResponse) (text : String) (data : JVal)
    (ha : answers R (imageGenerateCall env body) response text)
    (hp : R.jsonParse text = .ok data) :
    (∀ b, inlinePayload data = some b →
      (imageGenerate R env body).reply = { status := 200, body := base64Body b }) ∧
    (∀ s, inlineBase64String data = some s →
      (imageGenerate R env body).reply = { status := 200, body := base64Body (.str s) }) ∧
    (inlinePayload data = none → validStatus response.status →
      (imageGenerate R env body).reply = { status := response.status, body := data }) ∧
    (inlinePayload data = none → ¬ validStatus response.status →
      (imageGenerate R env body).reply
        = { status := 500
            body := .obj [("error", .str "Proxy error"),
                          ("details", .str (R.invalidStatusMessage response.status))] }) := by
  have key : ∀ b, inlinePayload data = some b →
      (imageGenerate R env body).reply = { status := 200, body := base64Body b } := by
    intro b hb
    have hi : hasInlineImage data = true := by
      rw [hasInlineImage_eq_isSome, hb]; rfl
    simp [imageGenerate, imageGenerateTry_parsed R _ response text data ha hp, hi,
      inlinePayload_eq_prop data b hb]
  refine ⟨key, ?_, ?_, ?_⟩
  · intro s hs
    apply key
    unfold inlineBase64String at hs
    cases hv : inlinePayload data with
    | none => simp [hv] at hs
    | some v =>
      cases v <;> simp_all
  · intro hn hs
    have hi : hasInlineImage data = false := by
      rw [hasInlineImage_eq_isSome, hn]; rfl
    simp [imageGenerate, imageGenerateTry_parsed R _ response text data ha hp, hi,
      respond_valid R _ data hs]
  · intro hn hs
    have hi : hasInlineImage data = false := by
      rw [hasInlineImage_eq_isSome, hn]; rfl
    simp [imageGenerate, imageGenerateTry_parsed R _ response text data ha hp, hi,
      respond_invalid R _ data hs, errorEnvelope]

/-- Witness for `imageGenerate_reply`: an upstream 502 whose body carries an
inline image string is answered with status 200 and the reshaped body. -/
theorem imageGenerate_reply_witness :
    (imageGenerate
        (exampleRuntime (.response (exampleResponse 502 imagePayloadText))
          [(imagePayloadText, imagePayloadBody)])
        emptyEnv (.object [("prompt", .str "a cat")])).reply
      = { status := 200, body := base64Body (.str "iVBORw0KGgo=") } :=
  (imageGenerate_reply
    (exampleRuntime (.response (exampleResponse 502 imagePayloadText))
      [(imagePayloadText, imagePayloadBody)])
    emptyEnv (.object [("prompt", .str "a cat")])
    (exampleResponse 502 imagePayloadText) imagePayloadText imagePayloadBody
    ⟨rfl, rfl⟩ rfl).2.1 "iVBORw0KGgo=" rfl

/-- C1 (counterexample). Two upstream answers on which the claim fails. The
upstream answers 404 with the JSON body `{"data":[{"b64_json":true}]}`: the
body has no non-empty `b64_json` string, so the claim asks for the reply 404
with the parsed value unchanged, and the handler replies 200 with the reshaped
body `{type, data: true, mimeType}`. The upstream answers with the status line
`099` and the JSON body `{"error":"rate"}`: the claim asks for the reply 99
with that value, and the handler replies 500 with the error envelope. -/
theorem imageGenerate_reshapes_boolean_payload :
    (inlineBase64String booleanPayloadBody = none ∧
      (imageGenerate
          (exampleRuntime (.response (exampleResponse 404 booleanPayloadText))
            [(booleanPayloadText, booleanPayloadBody)])
          emptyEnv (.object [("prompt", .str "a cat")])).reply
        = { status := 200, body := base64Body (.bool true) } ∧
      (imageGenerate
          (exampleRuntime (.response (exampleResponse 404 booleanPayloadText))
            [(booleanPayloadText, booleanPayloadBody)])
          emptyEnv (.object [("prompt", .str "a cat")])).reply
        ≠ { status := 404, body := booleanPayloadBody }) ∧
    (inlineBase64String rateLimitBody = none ∧
      (imageGenerate
          (exampleRuntime (.response (exampleResponse 99 rateLimitText))
            [(rateLimitText, rateLimitBody)])
          emptyEnv (.object [("prompt", .str "a cat")])).reply
        = { status := 500
            body := .obj [("error", .str "Proxy error"),
                          ("details", .str "Invalid status code: 99")] } ∧
      (imageGenerate
          (exampleRuntime (.response (exampleResponse 99 rateLimitText))
            [(rateLimitText, rateLimitBody)])
          emptyEnv (.object [("prompt", .str "a cat")])).reply
        ≠ { status := 99, body := rateLimitBody }) := by
  refine ⟨⟨rfl, rfl, ?_⟩, ⟨rfl, rfl, ?_⟩⟩
  · intro h
    have hs := congrArg Reply.status h
    exact absurd hs (by decide)
  · intro h
    have hs := congrArg Reply.status h
    exact absurd hs (by decide)

/-! ## The Perplexity route: configuration and validation -/

/-- C3. On POST /myqa/perplexity/search, when PERPLEXITY_API_KEY is unset or
empty, for every request body (and every runtime) the reply is exactly status
500 with body `{error: "Configuration error: PERPLEXITY_API_KEY not set on
server."}` and no outbound call is made. -/
theorem perplexitySearch_no_credential (R : Runtime) (env : Env) (body : ReqBody)
    (h : env.PERPLEXITY_API_KEY = none ∨ env.PERPLEXITY_API_KEY = some "") :
    perplexitySearch R env body
      = { reply :=
            { status := 500
              body := .obj [("error",
                .str "Configuration error: PERPLEXITY_API_KEY not set on server.")] }
          calls := [] } := by
  simp [perplexitySearch, perplexitySearchTry_absent R env body h, configurationErrorBody]

/-- Witness for `perplexitySearch_no_credential`: an empty credential and a
well-formed request. -/
theorem perplexitySearch_no_credential_witness :
    perplexitySearch (exampleRuntime (.response (exampleResponse 200 "[]")) [("[]", .arr [])])
        { emptyEnv with PERPLEXITY_API_KEY := some "" } oneMessageBody
      = { reply :=
            { status := 500
              body := .obj [("error",
                .str "Configuration error: PERPLEXITY_API_KEY not set on server.")] }
          calls := [] } :=
  perplexitySearch_no_credential _ { emptyEnv with PERPLEXITY_API_KEY := some "" } _
    (Or.inr rfl)

/-- C2 (amended). On POST /myqa/perplexity/search with the server credential
configured, for every request whose `messages` field is absent, is not an
array, or is an empty array, the reply status is exactly 400, the reply body
is `{error: e}` with a text `e` that mentions `messages`, and no outbound call
is made. -/
theorem perplexitySearch_invalid_messages (R : Runtime) (env : Env) (body : ReqBody)
    (k : String) (hk : configured env.PERPLEXITY_API_KEY k)
    (hm : body.field "messages" = .undefined ∨ isArray (body.field "messages") = false ∨
      body.field "messages" = .arr []) :
    ∃ e, perplexitySearch R env body
        = { reply := { status := 400, body := .obj [("error", .str e)] }, calls := [] } ∧
      mentions "messages" e = true := by
  refine ⟨invalidMessagesText, ?_, by decide⟩
  simp [perplexitySearch,
    perplexitySearchTry_invalid R env body k hk (invalidMessages_of_shape _ hm)]

/-- Witness for `perplexitySearch_invalid_messages`: `messages` is a string. -/
theorem perplexitySearch_invalid_messages_witness :
    ∃ e, perplexitySearch (exampleRuntime (.response (exampleResponse 200 "[]")) [("[]", .arr [])])
          perplexityEnv (.object [("messages", .str "hello")])
        = { reply := { status := 400, body := .obj [("error", .str e)] }, calls := [] } ∧
      mentions "messages" e = true :=
  perplexitySearch_invalid_messages _ perplexityEnv
    (.object [("messages", .str "hello")]) "pplx-key" ⟨rfl, by decide⟩ (Or.inr (Or.inl rfl))

/-- C2 (counterexample). With PERPLEXITY_API_KEY unset, a request without
`messages` is answered with status 500 (the configuration error), not 400. -/
theorem perplexitySearch_missing_messages_without_credential :
    (ReqBody.object []).field "messages" = .undefined ∧
    (perplexitySearch (exampleRuntime (.response (exampleResponse 200 "[]")) [("[]", .arr [])])
        emptyEnv (.object [])).reply.status = 500 ∧
    (perplexitySearch (exampleRuntime (.response (exampleResponse 200 "[]")) [("[]", .arr [])])
        emptyEnv (.object [])).reply.status ≠ 400 := by
  refine ⟨rfl, rfl, by decide⟩

/-! ## Pass-through of parseable upstream bodies -/

/-- C5 (amended). On POST /myqa/chat/completions, POST
/openrouter/chat/completions and POST /myqa/perplexity/search (the last with
the server credential configured and a non-empty `messages` array), for every
upstream status `s` in 100..999 and every upstream body that parses as a JSON
value `v`, the reply status is `s` and the reply body is `v`, with no
reshaping. -/
theorem passthrough_reply (R : Runtime) (env : Env) (body : ReqBody)
    (response : UpstreamResponse) (text : String) (v : JVal)
    (hp : R.jsonParse text = .ok v) (hs : validStatus response.status) :
    (answers R (myqaChatCompletionsCall env body) response text →
      (myqaChatCompletions R env body).reply = { status := response.status, body := v }) ∧
    (answers R (openrouterChatCompletionsCall env body) response text →
      (openrouterChatCompletions R env body).reply
        = { status := response.status, body := v }) ∧
    (∀ k m ms, configured env.PERPLEXITY_API_KEY k →
      body.field "messages" = .arr (m :: ms) →
      answers R (perplexitySearchCall k (.arr (m :: ms)) (body.field "stream"))
        response text →
      (perplexitySearch R env body).reply = { status := response.status, body := v }) := by
  refine ⟨?_, ?_, ?_⟩
  · intro ha
    simp [myqaChatCompletions, myqaChatCompletionsTry_parsed R _ response text v ha hp,
      respond_valid R _ v hs]
  · intro ha
    simp [openrouterChatCompletions,
      openrouterChatCompletionsTry_parsed R _ response text v ha hp, respond_valid R _ v hs]
  · intro k m ms hk hm ha
    simp [perplexitySearch,
      perplexitySearchTry_parsed R env body k m ms response text v hk hm ha hp,
      respond_valid R _ v hs]

/-- Witness for `passthrough_reply`: an upstream 429 with a JSON error object
is relayed unchanged by the three routes. -/
theorem passthrough_reply_witness :
    (myqaChatCompletions
        (exampleRuntime (.response (exampleResponse 429 rateLimitText))
          [(rateLimitText, rateLimitBody)])
        perplexityEnv oneMessageBody).reply = { status := 429, body := rateLimitBody } ∧
    (openrouterChatCompletions
        (exampleRuntime (.response (exampleResponse 429 rateLimitText))
          [(rateLimitText, rateLimitBody)])
        perplexityEnv oneMessageBody).reply = { status := 429, body := rateLimitBody } ∧
    (perplexitySearch
        (exampleRuntime (.response (exampleResponse 429 rateLimitText))
          [(rateLimitText, rateLimitBody)])
        perplexityEnv oneMessageBody).reply = { status := 429, body := rateLimitBody } :=
  have h := passthrough_reply
    (exampleRuntime (.response (exampleResponse 429 rateLimitText))
      [(rateLimitText, rateLimitBody)])
    perplexityEnv oneMessageBody (exampleResponse 429 rateLimitText) rateLimitText
    rateLimitBody rfl ⟨by decide, by decide⟩
  ⟨h.1 ⟨rfl, rfl⟩, h.2.1 ⟨rfl, rfl⟩,
    h.2.2 "pplx-key" _ [] ⟨rfl, by decide⟩ rfl ⟨rfl, rfl⟩⟩

/-- C5 (counterexample). The upstream answers with the status line `099` and
the JSON body `{"error":"rate"}`. The claim asks for the reply 99 with that
value; writing a reply with status 99 throws inside the `try` block and each
of the three routes replies 500 with its error envelope. -/
theorem passthrough_fails_on_status_99 :
    (exampleRuntime (.response (exampleResponse 99 rateLimitText))
        [(rateLimitText, rateLimitBody)]).jsonParse rateLimitText = .ok rateLimitBody ∧
    (myqaChatCompletions
        (exampleRuntime (.response (exampleResponse 99 rateLimitText))
          [(rateLimitText, rateLimitBody)])
        perplexityEnv oneMessageBody).reply
      = { status := 500
          body := .obj [("error", .str "Proxy error"),
                        ("details", .str "Invalid status code: 99")] } ∧
    (openrouterChatCompletions
        (exampleRuntime (.response (exampleResponse 99 rateLimitText))
          [(rateLimitText, rateLimitBody)])
        perplexityEnv oneMessageBody).reply
      = { status := 500
          body := .obj [("error", .str "Proxy error"),
                        ("details", .str "Invalid status code: 99")] } ∧
    (perplexitySearch
        (exampleRuntime (.response (exampleResponse 99 rateLimitText))
          [(rateLimitText, rateLimitBody)])
        perplexityEnv oneMessageBody).reply
      = { status := 500
          body := .obj [("error", .str "Perplexity proxy internal server error"),
                        ("details", .str "Invalid status code: 99")] } ∧
    (myqaChatCompletions
        (exampleRuntime (.response (exampleResponse 99 rateLimitText))
          [(rateLimitText, rateLimitBody)])
        perplexityEnv oneMessageBody).reply ≠ { status := 99, body := rateLimitBody } := by
  refine ⟨rfl, rfl, rfl, rfl, ?_⟩
  intro h
  have hs := congrArg Reply.status h
  exact absurd hs (by decide)

/-! ## Upstream bodies that are not JSON -/

/-- C6 (amended). For every route, when the upstream is contacted and returns
a body that is not valid JSON, the handler replies (it is a total function:
nothing is raised) with a structured error envelope that has both an `error`
and a `details` field: with status 500 on /myqa/image/generate,
/myqa/chat/completions, /openrouter/chat/completions and /search (either
provider), and on /myqa/perplexity/search with the upstream's own status when
that status is in 100..999 (502 when it is 0) and the additional fields
`perplexity_status`, `perplexity_headers` and `perplexity_raw_body`, the last
being the whole upstream text; for any other upstream status the
/myqa/perplexity/search reply is 500 with the two fields
`{error: "Perplexity proxy internal server error", details}`. -/
theorem non_json_reply (R : Runtime) (env : Env) (body : ReqBody)
    (response : UpstreamResponse) (text e : String)
    (hp : R.jsonParse text = .error e) :
    (answers R (imageGenerateCall env body) response text →
      (imageGenerate R env body).reply
        = { status := 500
            body := .obj [("error", .str "Proxy error"),
                          ("details", .str "Non-JSON response from ir-api.myqa.cc")] }) ∧
    (answers R (myqaChatCompletionsCall env body) response text →
      (myqaChatCompletions R env body).reply
        = { status := 500
            body := .obj [("error", .str "Proxy error"),
                          ("details", .str "Non-JSON response from chat completions")] }) ∧
    (answers R (openrouterChatCompletionsCall env body) response text →
      (openrouterChatCompletions R env body).reply
        = { status := 500
            body := .obj [("error", .str "Proxy error"),
                          ("details", .str (R.invalidJsonMessage response e))] }) ∧
    (∀ k, configured env.SERPER_API_KEY k →
      answers R (serperCall k body) response text →
      (search R env body).reply
        = { status := 500
            body := .obj [("error", .str "Search proxy error"),
                          ("details", .str (R.invalidJsonMessage response e))] }) ∧
    (∀ q, absent env.SERPER_API_KEY →
      R.encodeURIComponent (body.field "query") = .ok q →
      answers R (duckDuckGoCall q) response text →
      (search R env body).reply
        = { status := 500
            body := .obj [("error", .str "Search proxy error"),
                          ("details", .str (R.invalidJsonMessage response e))] }) ∧
    (∀ k m ms, configured env.PERPLEXITY_API_KEY k →
      body.field "messages" = .arr (m :: ms) →
      answers R (perplexitySearchCall k (.arr (m :: ms)) (body.field "stream"))
        response text →
      (response.status = 0 ∨ validStatus response.status) →
      (perplexitySearch R env body).reply
        = { status := if response.status = 0 then 502 else response.status
            body := .obj
              [("error", .str ("Non-JSON response from Perplexity. Status: "
                  ++ toString response.status)),
               ("details", .str "The Perplexity API did not return valid JSON. This might happen with 404s or other server errors."),
               ("perplexity_status", .num (.finite response.status)),
               ("perplexity_headers",
                 .obj (response.headers.map fun kv => (kv.1, JVal.str kv.2))),
               ("perplexity_raw_body", .str text)] }) ∧
    (∀ k m ms, configured env.PERPLEXITY_API_KEY k →
      body.field "messages" = .arr (m :: ms) →
      answers R (perplexitySearchCall k (.arr (m :: ms)) (body.field "stream"))
        response text →
      response.status ≠ 0 → ¬ validStatus response.status →
      (perplexitySearch R env body).reply
        = { status := 500
            body := .obj [("error", .str "Perplexity proxy internal server error"),
                          ("details", .str (R.invalidStatusMessage response.status))] }) := by
  refine ⟨?_, ?_, ?_, ?_, ?_, ?_, ?_⟩
  · intro ha
    simp [imageGenerate, imageGenerateTry_nonJson R _ response text e ha hp, errorEnvelope]
  · intro ha
    simp [myqaChatCompletions, myqaChatCompletionsTry_nonJson R _ response text e ha hp,
      errorEnvelope]
  · intro ha
    simp [openrouterChatCompletions,
      openrouterChatCompletionsTry_nonJson R _ response text e ha hp, errorEnvelope]
  · intro k hk ha
    simp [search, searchTry_configured R env body k hk,
      searchPrimary_nonJson R k body response text e ha hp, errorEnvelope]
  · intro q hk hq ha
    simp [search, searchTry_absent R env body hk,
      searchFallback_nonJson R body q response text e hq ha hp, errorEnvelope]
  · intro k m ms hk hm ha hs
    have hv : validStatus (statusOr502 response.status) := by
      rw [statusOr502_eq]
      rcases hs with h0 | hv
      · simp only [h0, if_true]
        exact ⟨by decide, by decide⟩
      · have hne : response.status ≠ 0 := by
          intro h0
          have h100 := hv.1
          omega
        simpa [hne] using hv
    rw [perplexitySearch,
      perplexitySearchTry_nonJson R env body k m ms response text e hk hm ha hp,
      respond_valid R _ _ hv]
    simp only [perplexityNonJsonBody, statusNumber, headersObject, statusOr502_eq]
  · intro k m ms hk hm ha h0 hs
    have hv : ¬ validStatus (statusOr502 response.status) := by
      rw [statusOr502_eq]
      simpa [h0] using hs
    rw [perplexitySearch,
      perplexitySearchTry_nonJson R env body k m ms response text e hk hm ha hp,
      respond_invalid R _ _ hv]
    simp [statusOr502_eq, h0, errorEnvelope]

/-- Witness for `non_json_reply`: the routes answer an HTML 503 with an error
envelope, the Perplexity route with status 503 and the raw page. -/
theorem non_json_reply_witness :
    (imageGenerate (exampleRuntime (.response htmlResponse) []) searchEnv oneMessageBody).reply
      = { status := 500
          body := .obj [("error", .str "Proxy error"),
                        ("details", .str "Non-JSON response from ir-api.myqa.cc")] } ∧
    (search (exampleRuntime (.response htmlResponse) []) searchEnv oneMessageBody).reply.status
      = 500 ∧
    (perplexitySearch (exampleRuntime (.response htmlResponse) []) searchEnv
        oneMessageBody).reply.status = 503 ∧
    prop (perplexitySearch (exampleRuntime (.response htmlResponse) []) searchEnv
        oneMessageBody).reply.body "perplexity_raw_body" = .str "<html>down</html>" := by
  have h := non_json_reply (exampleRuntime (.response htmlResponse) []) searchEnv
    oneMessageBody htmlResponse "<html>down</html>" "Unexpected token < in JSON at position 0"
    rfl
  refine ⟨h.1 ⟨rfl, rfl⟩, ?_, ?_, ?_⟩
  · rw [h.2.2.2.1 "serper-key" ⟨rfl, by decide⟩ ⟨rfl, rfl⟩]
  · rw [h.2.2.2.2.2.1 "pplx-key" _ [] ⟨rfl, by decide⟩ rfl ⟨rfl, rfl⟩
      (Or.inr ⟨by decide, by decide⟩)]
    rfl
  · rw [h.2.2.2.2.2.1 "pplx-key" _ [] ⟨rfl, by decide⟩ rfl ⟨rfl, rfl⟩
      (Or.inr ⟨by decide, by decide⟩)]
    rfl

/-- C6 (counterexample). The Perplexity upstream answers with the status line
`099` and an HTML page. The claim asks for a reply with the upstream's own
status and the fields `perplexity_status`, `perplexity_headers` and
`perplexity_raw_body`; writing a reply with status 99 throws inside the outer
`try` block, and the reply is 500 with the two-field envelope of the catch
block. -/
theorem perplexitySearch_non_json_status_99 :
    (exampleRuntime (.response status99Html) []).jsonParse "<html>down</html>"
      = .error "Unexpected token < in JSON at position 0" ∧
    (perplexitySearch (exampleRuntime (.response status99Html) []) perplexityEnv
        oneMessageBody).reply
      = { status := 500
          body := .obj [("error", .str "Perplexity proxy internal server error"),
                        ("details", .str "Invalid status code: 99")] } ∧
    (perplexitySearch (exampleRuntime (.response status99Html) []) perplexityEnv
        oneMessageBody).reply.status ≠ 99 ∧
    prop (perplexitySearch (exampleRuntime (.response status99Html) []) perplexityEnv
        oneMessageBody).reply.body "perplexity_raw_body" = .undefined := by
  refine ⟨rfl, rfl, by decide, rfl⟩

/-! ## Credential resolution -/

/-- C8 (amended). On POST /myqa/image/generate, POST /myqa/chat/completions
and POST /openrouter/chat/completions, whenever the request body's `apiKey`
can be converted to a string (it is absent, or any string, number, boolean or
`null`, or an object or array free of an own `toString` property), exactly one
outbound call is made and the credential interpolated into its Authorization
header (`Bearer <credential>`) is the body's `apiKey` when the body has one (a
truthy value, such as any non-empty string), and otherwise the provider's
process-wide credential: IMAGE_ROUTER_API_KEY for the two myqa routes,
OPEN_ROUTER_API_KEY for openrouter. With neither credential present the one
call is still made, with the credential `undefined`. When `apiKey` cannot be
converted to a string, no outbound call is made and the reply is 500 with
`{error: "Proxy error", details}`. -/
theorem outbound_credential (R : Runtime) (env : Env) (body : ReqBody) :
    (stringCoercible (body.field "apiKey") = true →
      (imageGenerate R env body).calls = [imageGenerateCall env body] ∧
      (myqaChatCompletions R env body).calls = [myqaChatCompletionsCall env body] ∧
      (openrouterChatCompletions R env body).calls
        = [openrouterChatCompletionsCall env body]) ∧
    (truthy (body.field "apiKey") = true →
      (imageGenerateCall env body).headers.lookup "Authorization"
        = some (.bearer (body.field "apiKey")) ∧
      (myqaChatCompletionsCall env body).headers.lookup "Authorization"
        = some (.bearer (body.field "apiKey")) ∧
      (openrouterChatCompletionsCall env body).headers.lookup "Authorization"
        = some (.bearer (body.field "apiKey"))) ∧
    (truthy (body.field "apiKey") = false →
      ((imageGenerate R env body).calls = [imageGenerateCall env body] ∧
        (imageGenerateCall env body).headers.lookup "Authorization"
          = some (.bearer (envVal env.IMAGE_ROUTER_API_KEY))) ∧
      ((myqaChatCompletions R env body).calls = [myqaChatCompletionsCall env body] ∧
        (myqaChatCompletionsCall env body).headers.lookup "Authorization"
          = some (.bearer (envVal env.IMAGE_ROUTER_API_KEY))) ∧
      ((openrouterChatCompletions R env body).calls
          = [openrouterChatCompletionsCall env body] ∧
        (openrouterChatCompletionsCall env body).headers.lookup "Authorization"
          = some (.bearer (envVal env.OPEN_ROUTER_API_KEY)))) ∧
    (body.field "apiKey" = .undefined →
      env.IMAGE_ROUTER_API_KEY = none → env.OPEN_ROUTER_API_KEY = none →
      ((imageGenerate R env body).calls = [imageGenerateCall env body] ∧
        (imageGenerateCall env body).headers.lookup "Authorization"
          = some (.bearer .undefined)) ∧
      ((myqaChatCompletions R env body).calls = [myqaChatCompletionsCall env body] ∧
        (myqaChatCompletionsCall env body).headers.lookup "Authorization"
          = some (.bearer .undefined)) ∧
      ((openrouterChatCompletions R env body).calls
          = [openrouterChatCompletionsCall env body] ∧
        (openrouterChatCompletionsCall env body).headers.lookup "Authorization"
          = some (.bearer .undefined))) ∧
    (stringCoercible (body.field "apiKey") = false →
      imageGenerate R env body
        = { reply :=
              { status := 500
                body := .obj [("error", .str "Proxy error"),
                              ("details", .str (R.coercionMessage (body.field "apiKey")))] }
            calls := [] } ∧
      myqaChatCompletions R env body
        = { reply :=
              { status := 500
                body := .obj [("error", .str "Proxy error"),
                              ("details", .str (R.coercionMessage (body.field "apiKey")))] }
            calls := [] } ∧
      openrouterChatCompletions R env body
        = { reply :=
              { status := 500
                body := .obj [("error", .str "Proxy error"),
                              ("details", .str (R.coercionMessage (body.field "apiKey")))] }
            calls := [] }) := by
  have hi := issued_of_bearer (imageGenerateCall env body) (body.field "apiKey")
    env.IMAGE_ROUTER_API_KEY rfl
  have hm := issued_of_bearer (myqaChatCompletionsCall env body) (body.field "apiKey")
    env.IMAGE_ROUTER_API_KEY rfl
  have ho := issued_of_bearer (openrouterChatCompletionsCall env body) (body.field "apiKey")
    env.OPEN_ROUTER_API_KEY rfl
  have hcalls : stringCoercible (body.field "apiKey") = true →
      (imageGenerate R env body).calls = [imageGenerateCall env body] ∧
      (myqaChatCompletions R env body).calls = [myqaChatCompletionsCall env body] ∧
      (openrouterChatCompletions R env body).calls
        = [openrouterChatCompletionsCall env body] := by
    intro hc
    rw [imageGenerate_calls, myqaChatCompletions_calls, openrouterChatCompletions_calls,
      hi, hm, ho]
    simp [hc]
  have hfalsy : truthy (body.field "apiKey") = false →
      stringCoercible (body.field "apiKey") = true := by
    intro h
    cases hv : body.field "apiKey" <;> simp_all [truthy, stringCoercible]
  refine ⟨hcalls, ?_, ?_, ?_, ?_⟩
  · intro h
    simp [imageGenerateCall, myqaChatCompletionsCall, openrouterChatCompletionsCall,
      jsonBearerHeaders, jsOr, h, List.lookup]
  · intro h
    obtain ⟨h1, h2, h3⟩ := hcalls (hfalsy h)
    refine ⟨⟨h1, ?_⟩, ⟨h2, ?_⟩, ⟨h3, ?_⟩⟩ <;>
      simp [imageGenerateCall, myqaChatCompletionsCall, openrouterChatCompletionsCall,
        jsonBearerHeaders, jsOr, h, List.lookup]
  · intro h h1 h2
    obtain ⟨c1, c2, c3⟩ := hcalls (by rw [h]; rfl)
    refine ⟨⟨c1, ?_⟩, ⟨c2, ?_⟩, ⟨c3, ?_⟩⟩ <;>
      simp [imageGenerateCall, myqaChatCompletionsCall, openrouterChatCompletionsCall,
        jsonBearerHeaders, jsOr, h, h1, h2, envVal, truthy, List.lookup]
  · intro hc
    have fi := awaitFetch_of_uncoercible R (imageGenerateCall env body)
      (body.field "apiKey") env.IMAGE_ROUTER_API_KEY rfl hc
    have fm := awaitFetch_of_uncoercible R (myqaChatCompletionsCall env body)
      (body.field "apiKey") env.IMAGE_ROUTER_API_KEY rfl hc
    have fo := awaitFetch_of_uncoercible R (openrouterChatCompletionsCall env body)
      (body.field "apiKey") env.OPEN_ROUTER_API_KEY rfl hc
    refine ⟨?_, ?_, ?_⟩
    · simp [imageGenerate, imageGenerateTry_fails R _ _ (Or.inl fi), hi, hc, errorEnvelope]
    · simp [myqaChatCompletions, myqaChatCompletionsTry_fails R _ _ (Or.inl fm), hm, hc,
        errorEnvelope]
    · simp [openrouterChatCompletions, openrouterChatCompletionsTry_fails R _ _ (Or.inl fo),
        ho, hc, errorEnvelope]

/-- Witness for `outbound_credential`: a caller key wins over the server key
and is sent in exactly one call, and an empty caller key falls back to the
server key. -/
theorem outbound_credential_witness :
    (imageGenerate (exampleRuntime (.response (exampleResponse 200 "[]")) [("[]", .arr [])])
        imageEnv (.object [("apiKey", .str "caller-key")])).calls
      = [imageGenerateCall imageEnv (.object [("apiKey", .str "caller-key")])] ∧
    (imageGenerateCall imageEnv
        (.object [("apiKey", .str "caller-key")])).headers.lookup "Authorization"
      = some (.bearer (.str "caller-key")) ∧
    (imageGenerateCall imageEnv
        (.object [("apiKey", .str "")])).headers.lookup "Authorization"
      = some (.bearer (.str "server-key")) :=
  ⟨((outbound_credential (exampleRuntime (.response (exampleResponse 200 "[]")) [("[]", .arr [])])
      imageEnv (.object [("apiKey", .str "caller-key")])).1 rfl).1,
   ((outbound_credential (exampleRuntime (.response (exampleResponse 200 "[]")) [("[]", .arr [])])
      imageEnv (.object [("apiKey", .str "caller-key")])).2.1 rfl).1,
   ((outbound_credential (exampleRuntime (.response (exampleResponse 200 "[]")) [("[]", .arr [])])
      imageEnv (.object [("apiKey", .str "")])).2.2.1 rfl).1.2⟩

/-- C8 (counterexample). The request body is
`{"apiKey": {"toString": null}, "prompt": "a cat"}`. The body has an `apiKey`
(a truthy value), so the claim asks for an outbound call whose Authorization
header carries it; evaluating the template literal of the header throws, no
outbound call is made on any of the three routes, and the reply is 500. -/
theorem uncoercible_apiKey_makes_no_call :
    truthy (uncoercibleKeyBody.field "apiKey") = true ∧
    imageGenerate (exampleRuntime (.response (exampleResponse 200 "[]")) [("[]", .arr [])])
        imageEnv uncoercibleKeyBody
      = { reply :=
            { status := 500
              body := .obj [("error", .str "Proxy error"),
                            ("details", .str "Cannot convert object to primitive value")] }
          calls := [] } ∧
    (myqaChatCompletions
        (exampleRuntime (.response (exampleResponse 200 "[]")) [("[]", .arr [])])
        imageEnv uncoercibleKeyBody).calls = [] ∧
    (openrouterChatCompletions
        (exampleRuntime (.response (exampleResponse 200 "[]")) [("[]", .arr [])])
        imageEnv uncoercibleKeyBody).calls = [] := by
  refine ⟨rfl, rfl, rfl, rfl⟩

/-! ## The outbound Perplexity payload -/

/-- C9. On POST /myqa/perplexity/search with the server credential configured
and a non-empty `messages` array, exactly one outbound call is made and its
body is exactly `{model: "sonar", messages, stream}` with the caller's
messages unchanged and in order, and with `stream` the caller's value when
the body supplies one and `false` otherwise; the model is "sonar" whatever
`model` or other fields the caller's body holds. -/
theorem perplexitySearch_outbound_body (R : Runtime) (env : Env) (body : ReqBody)
    (k : String) (m : JVal) (ms : List JVal)
    (hk : configured env.PERPLEXITY_API_KEY k)
    (hm : body.field "messages" = .arr (m :: ms)) :
    ∃ req, (perplexitySearch R env body).calls = [req] ∧
      req.url = "https://api.perplexity.ai/chat/completions" ∧
      req.headers.lookup "Authorization" = some (.bearer (.str k)) ∧
      (∀ fields v, body = .object fields → fields.lookup "stream" = some v →
        v ≠ .undefined →
        req.body = some (.obj [("model", .str "sonar"), ("messages", .arr (m :: ms)),
                               ("stream", v)])) ∧
      (∀ fields, body = .object fields → fields.lookup "stream" = none →
        req.body = some (.obj [("model", .str "sonar"), ("messages", .arr (m :: ms)),
                               ("stream", .bool false)])) := by
  refine ⟨perplexitySearchCall k (.arr (m :: ms)) (body.field "stream"), ?_, rfl, ?_, ?_, ?_⟩
  · have hc := perplexitySearchTry_calls R env body k m ms hk hm
    simp only [perplexitySearch]
    split <;> simp_all
  · simp [perplexitySearchCall, List.lookup]
  · intro fields v hb hv hne
    have hs : body.field "stream" = v := by
      simp [hb, ReqBody.field, ReqBody.toJVal, prop, hv]
    have hu : isUndefined v = false := by
      cases v <;> simp_all [isUndefined]
    simp [perplexitySearchCall, hs, hu]
  · intro fields hb hv
    have hs : body.field "stream" = .undefined := by
      simp [hb, ReqBody.field, ReqBody.toJVal, prop, hv]
    simp [perplexitySearchCall, hs, isUndefined]

/-- Witness for `perplexitySearch_outbound_body`: a caller asking for model
`gpt-4` with `stream: true` is forwarded with model `sonar` and `stream: true`. -/
theorem perplexitySearch_outbound_body_witness :
    ∃ req, (perplexitySearch (exampleRuntime (.throws "socket hang up") []) perplexityEnv
        oneMessageBody).calls = [req] ∧
      req.body = some (.obj [("model", .str "sonar"),
        ("messages", .arr [.obj [("role", .str "user"), ("content", .str "hi")]]),
        ("stream", .bool true)]) := by
  obtain ⟨req, hc, _, _, hs, _⟩ := perplexitySearch_outbound_body
    (exampleRuntime (.throws "socket hang up") []) perplexityEnv oneMessageBody "pplx-key"
    (.obj [("role", .str "user"), ("content", .str "hi")]) [] ⟨rfl, by decide⟩ rfl
  exact ⟨req, hc, hs _ (.bool true) rfl rfl (by simp)⟩

/-! ## Failure of the outbound call -/

/-- C10. On every route, when the outbound call itself fails by raising an
error with message `m` (`fetch` rejects, or reading the body rejects), the
handler catches it and the reply is status 500 with body exactly
`{error: L, details: m}`, where `L` is "Proxy error" on
/myqa/image/generate, /myqa/chat/completions and /openrouter/chat/completions,
"Search proxy error" on /search (either provider) and "Perplexity proxy
internal server error" on /myqa/perplexity/search. -/
theorem outbound_failure_reply (R : Runtime) (env : Env) (body : ReqBody) (m : String) :
    (failsWith R (imageGenerateCall env body) m →
      (imageGenerate R env body).reply
        = { status := 500
            body := .obj [("error", .str "Proxy error"), ("details", .str m)] }) ∧
    (failsWith R (myqaChatCompletionsCall env body) m →
      (myqaChatCompletions R env body).reply
        = { status := 500
            body := .obj [("error", .str "Proxy error"), ("details", .str m)] }) ∧
    (failsWith R (openrouterChatCompletionsCall env body) m →
      (openrouterChatCompletions R env body).reply
        = { status := 500
            body := .obj [("error", .str "Proxy error"), ("details", .str m)] }) ∧
    (∀ k, configured env.SERPER_API_KEY k → failsWith R (serperCall k body) m →
      (search R env body).reply
        = { status := 500
            body := .obj [("error", .str "Search proxy error"), ("details", .str m)] }) ∧
    (∀ q, absent env.SERPER_API_KEY →
      R.encodeURIComponent (body.field "query") = .ok q →
      failsWith R (duckDuckGoCall q) m →
      (search R env body).reply
        = { status := 500
            body := .obj [("error", .str "Search proxy error"), ("details", .str m)] }) ∧
    (∀ k x xs, configured env.PERPLEXITY_API_KEY k →
      body.field "messages" = .arr (x :: xs) →
      failsWith R (perplexitySearchCall k (.arr (x :: xs)) (body.field "stream")) m →
      (perplexitySearch R env body).reply
        = { status := 500
            body := .obj [("error", .str "Perplexity proxy internal server error"),
                          ("details", .str m)] }) := by
  refine ⟨?_, ?_, ?_, ?_, ?_, ?_⟩
  · intro h
    simp [imageGenerate, imageGenerateTry_fails R _ m h, errorEnvelope]
  · intro h
    simp [myqaChatCompletions, myqaChatCompletionsTry_fails R _ m h, errorEnvelope]
  · intro h
    simp [openrouterChatCompletions, openrouterChatCompletionsTry_fails R _ m h,
      errorEnvelope]
  · intro k hk h
    simp [search, searchTry_configured R env body k hk, searchPrimary_fails R k body m h,
      errorEnvelope]
  · intro q hk hq h
    simp [search, searchTry_absent R env body hk, searchFallback_fails R body q m hq h,
      errorEnvelope]
  · intro k x xs hk hm h
    simp [perplexitySearch, perplexitySearchTry_fails R env body k x xs m hk hm h,
      errorEnvelope]

/-- Witness for `outbound_failure_reply`: a refused connection on the image,
search and Perplexity routes. -/
theorem outbound_failure_reply_witness :
    (imageGenerate (exampleRuntime (.throws "connect ECONNREFUSED") []) searchEnv
        oneMessageBody).reply
      = { status := 500
          body := .obj [("error", .str "Proxy error"),
                        ("details", .str "connect ECONNREFUSED")] } ∧
    (search (exampleRuntime (.throws "connect ECONNREFUSED") []) searchEnv
        queryBody).reply
      = { status := 500
          body := .obj [("error", .str "Search proxy error"),
                        ("details", .str "connect ECONNREFUSED")] } ∧
    (perplexitySearch (exampleRuntime (.throws "connect ECONNREFUSED") []) searchEnv
        oneMessageBody).reply
      = { status := 500
          body := .obj [("error", .str "Perplexity proxy internal server error"),
                        ("details", .str "connect ECONNREFUSED")] } :=
  ⟨(outbound_failure_reply (exampleRuntime (.throws "connect ECONNREFUSED") []) searchEnv
      oneMessageBody "connect ECONNREFUSED").1 (Or.inl rfl),
   (outbound_failure_reply (exampleRuntime (.throws "connect ECONNREFUSED") []) searchEnv
      queryBody "connect ECONNREFUSED").2.2.2.1 "serper-key" ⟨rfl, by decide⟩ (Or.inl rfl),
   (outbound_failure_reply (exampleRuntime (.throws "connect ECONNREFUSED") []) searchEnv
      oneMessageBody "connect ECONNREFUSED").2.2.2.2.2 "pplx-key" _ [] ⟨rfl, by decide⟩ rfl
      (Or.inl rfl)⟩

/-! ## The search route -/

/-- C7 (amended). On POST /search: when SERPER_API_KEY is configured, the
primary provider is the one called and, for every upstream body that parses
as JSON, the reply body is that parsed value unchanged (status 200); when it
is absent and the query can be URI-encoded, the fallback provider is the one
called and, for every fallback body that parses as a JSON value `d` other than
`null`, the reply body is exactly the one-element list
`{organic: [{title: d.Heading, snippet: d.AbstractText, link: d.AbstractURL}]}`
(status 200). -/
theorem search_reply (R : Runtime) (env : Env) (body : ReqBody) :
    (∀ k, configured env.SERPER_API_KEY k →
      (search R env body).calls = [serperCall k body] ∧
      ∀ response text v, answers R (serperCall k body) response text →
        R.jsonParse text = .ok v →
        (search R env body).reply = { status := 200, body := v }) ∧
    (∀ q, absent env.SERPER_API_KEY →
      R.encodeURIComponent (body.field "query") = .ok q →
      (search R env body).calls = [duckDuckGoCall q] ∧
      ∀ response text d, answers R (duckDuckGoCall q) response text →
        R.jsonParse text = .ok d → d ≠ .null → d ≠ .undefined →
        (search R env body).reply
          = { status := 200
              body := .obj [("organic", .arr [.obj [("title", prop d "Heading"),
                                                    ("snippet", prop d "AbstractText"),
                                                    ("link", prop d "AbstractURL")]])] }) := by
  refine ⟨?_, ?_⟩
  · intro k hk
    refine ⟨?_, ?_⟩
    · have hc := searchPrimary_calls R k body
      simp only [search, searchTry_configured R env body k hk]
      split <;> simp_all
    · intro response text v ha hp
      simp [search, searchTry_configured R env body k hk,
        searchPrimary_parsed R k body response text v ha hp]
  · intro q hk hq
    refine ⟨?_, ?_⟩
    · have hc := searchFallback_calls R body q hq
      simp only [search, searchTry_absent R env body hk]
      split <;> simp_all
    · intro response text d ha hp h1 h2
      simp [search, searchTry_absent R env body hk,
        searchFallback_parsed R body q response text d hq ha hp (nullish_eq_false d h1 h2),
        organicBody]

/-- Witness for `search_reply`: with no search credential the instant answer
for `lean` is reshaped into one organic result, through one call to the
fallback provider. -/
theorem search_reply_witness :
    (search (exampleRuntime (.response (exampleResponse 200 instantAnswerText))
        [(instantAnswerText, instantAnswerBody)]) emptyEnv queryBody).calls
      = [duckDuckGoCall "lean"] ∧
    (search (exampleRuntime (.response (exampleResponse 200 instantAnswerText))
        [(instantAnswerText, instantAnswerBody)]) emptyEnv queryBody).reply
      = { status := 200
          body := .obj [("organic", .arr [.obj [("title", .str "Lean"),
                                                ("snippet", .str "A prover"),
                                                ("link", .str "https://lean-lang.org")]])] } :=
  have h := (search_reply (exampleRuntime (.response (exampleResponse 200 instantAnswerText))
    [(instantAnswerText, instantAnswerBody)]) emptyEnv queryBody).2 "lean" (Or.inl rfl) rfl
  ⟨h.1, h.2 (exampleResponse 200 instantAnswerText) instantAnswerText instantAnswerBody
    ⟨rfl, rfl⟩ rfl (by simp [instantAnswerBody]) (by simp [instantAnswerBody])⟩

/-- C7 (counterexample). With no search credential, the fallback provider
answers 200 with the JSON body `null`. The claim asks for the reply body
`{organic: [{title: d.Heading, ...}]}`; reading `null.Heading` throws, and the
handler replies 500 with the envelope `{error: "Search proxy error", details}`. -/
theorem search_fallback_null_body :
    (exampleRuntime (.response (exampleResponse 200 "null")) [("null", .null)]).jsonParse "null"
      = .ok .null ∧
    (search (exampleRuntime (.response (exampleResponse 200 "null")) [("null", .null)])
        emptyEnv queryBody).reply
      = { status := 500
          body := .obj [("error", .str "Search proxy error"),
                        ("details",
                          .str "Cannot read properties of null (reading 'Heading')")] } ∧
    (search (exampleRuntime (.response (exampleResponse 200 "null")) [("null", .null)])
        emptyEnv queryBody).reply.body
      ≠ organicBody (prop .null "Heading") (prop .null "AbstractText")
          (prop .null "AbstractURL") := by
  refine ⟨rfl, rfl, ?_⟩
  intro h
  have h2 : (JVal.obj [("error", .str "Search proxy error"),
      ("details", .str "Cannot read properties of null (reading 'Heading')")])
      = organicBody (prop .null "Heading") (prop .null "AbstractText")
          (prop .null "AbstractURL") := h
  simp [organicBody] at h2

/-! ## The status returned to the caller -/

/-- C4 (amended). For an upstream status in 100..999, the reply status equals
the upstream's status on /myqa/chat/completions, /openrouter/chat/completions
and /myqa/perplexity/search whenever the upstream body parses as JSON, and on
/myqa/image/generate when the parsed body carries no inline image; on these
paths an upstream status outside 100..999 is answered 500. The reply status is
200, whatever the upstream status, on /myqa/image/generate when the parsed
body carries an inline image and on /search whenever the provider's body
parses (on the fallback: to a value other than `null`). On
/myqa/perplexity/search it is 500 when the credential is absent, 400 when the
credential is configured and `messages` is absent, not an array or empty, and,
when the body is not JSON, the upstream's status if that is in 100..999, 502
if it is 0 and 500 otherwise. It is 500 when the outbound call raises on any
route, when the body is not JSON on the other four routes, when the search
query cannot be URI-encoded and when the fallback body is `null`. -/
theorem reply_status (R : Runtime) (env : Env) (body : ReqBody) :
    (∀ response text v, R.jsonParse text = .ok v →
      (answers R (myqaChatCompletionsCall env body) response text →
        (myqaChatCompletions R env body).reply.status
          = if validStatus response.status then response.status else 500) ∧
      (answers R (openrouterChatCompletionsCall env body) response text →
        (openrouterChatCompletions R env body).reply.status
          = if validStatus response.status then response.status else 500) ∧
      (∀ k m ms, configured env.PERPLEXITY_API_KEY k →
        body.field "messages" = .arr (m :: ms) →
        answers R (perplexitySearchCall k (.arr (m :: ms)) (body.field "stream"))
          response text →
        (perplexitySearch R env body).reply.status
          = if validStatus response.status then response.status else 500) ∧
      (answers R (imageGenerateCall env body) response text →
        (imageGenerate R env body).reply.status
          = if (inlinePayload v).isSome then 200
            else if validStatus response.status then response.status else 500) ∧
      (∀ k, configured env.SERPER_API_KEY k →
        answers R (serperCall k body) response text →
        (search R env body).reply.status = 200) ∧
      (∀ q, absent env.SERPER_API_KEY →
        R.encodeURIComponent (body.field "query") = .ok q →
        answers R (duckDuckGoCall q) response text →
        (search R env body).reply.status = if nullish v then 500 else 200)) ∧
    (∀ response text e, R.jsonParse text = .error e →
      (answers R (imageGenerateCall env body) response text →
        (imageGenerate R env body).reply.status = 500) ∧
      (answers R (myqaChatCompletionsCall env body) response text →
        (myqaChatCompletions R env body).reply.status = 500) ∧
      (answers R (openrouterChatCompletionsCall env body) response text →
        (openrouterChatCompletions R env body).reply.status = 500) ∧
      (∀ k, configured env.SERPER_API_KEY k →
        answers R (serperCall k body) response text →
        (search R env body).reply.status = 500) ∧
      (∀ q, absent env.SERPER_API_KEY →
        R.encodeURIComponent (body.field "query") = .ok q →
        answers R (duckDuckGoCall q) response text →
        (search R env body).reply.status = 500) ∧
      (∀ k m ms, configured env.PERPLEXITY_API_KEY k →
        body.field "messages" = .arr (m :: ms) →
        answers R (perplexitySearchCall k (.arr (m :: ms)) (body.field "stream"))
          response text →
        (perplexitySearch R env body).reply.status
          = if response.status = 0 then 502
            else if validStatus response.status then response.status else 500)) ∧
    (∀ e,
      (failsWith R (imageGenerateCall env body) e →
        (imageGenerate R env body).reply.status = 500) ∧
      (failsWith R (myqaChatCompletionsCall env body) e →
        (myqaChatCompletions R env body).reply.status = 500) ∧
      (failsWith R (openrouterChatCompletionsCall env body) e →
        (openrouterChatCompletions R env body).reply.status = 500) ∧
      (∀ k, configured env.SERPER_API_KEY k → failsWith R (serperCall k body) e →
        (search R env body).reply.status = 500) ∧
      (∀ q, absent env.SERPER_API_KEY →
        R.encodeURIComponent (body.field "query") = .ok q →
        failsWith R (duckDuckGoCall q) e →
        (search R env body).reply.status = 500) ∧
      (∀ k m ms, configured env.PERPLEXITY_API_KEY k →
        body.field "messages" = .arr (m :: ms) →
        failsWith R (perplexitySearchCall k (.arr (m :: ms)) (body.field "stream")) e →
        (perplexitySearch R env body).reply.status = 500)) ∧
    (absent env.PERPLEXITY_API_KEY → (perplexitySearch R env body).reply.status = 500) ∧
    (∀ k, configured env.PERPLEXITY_API_KEY k →
      (body.field "messages" = .undefined ∨ isArray (body.field "messages") = false ∨
        body.field "messages" = .arr []) →
      (perplexitySearch R env body).reply.status = 400) ∧
    (∀ e, absent env.SERPER_API_KEY →
      R.encodeURIComponent (body.field "query") = .error e →
      (search R env body).reply.status = 500) := by
  refine ⟨?_, ?_, ?_, ?_, ?_, ?_⟩
  · intro response text v hp
    refine ⟨?_, ?_, ?_, ?_, ?_, ?_⟩
    · intro ha
      by_cases hv : validStatus response.status
      · simp [myqaChatCompletions, myqaChatCompletionsTry_parsed R _ response text v ha hp,
          respond_valid R _ v hv, hv]
      · simp [myqaChatCompletions, myqaChatCompletionsTry_parsed R _ response text v ha hp,
          respond_invalid R _ v hv, hv]
    · intro ha
      by_cases hv : validStatus response.status
      · simp [openrouterChatCompletions,
          openrouterChatCompletionsTry_parsed R _ response text v ha hp,
          respond_valid R _ v hv, hv]
      · simp [openrouterChatCompletions,
          openrouterChatCompletionsTry_parsed R _ response text v ha hp,
          respond_invalid R _ v hv, hv]
    · intro k m ms hk hm ha
      by_cases hv : validStatus response.status
      · simp [perplexitySearch,
          perplexitySearchTry_parsed R env body k m ms response text v hk hm ha hp,
          respond_valid R _ v hv, hv]
      · simp [perplexitySearch,
          perplexitySearchTry_parsed R env body k m ms response text v hk hm ha hp,
          respond_invalid R _ v hv, hv]
    · intro ha
      rw [← hasInlineImage_eq_isSome]
      cases hi : hasInlineImage v
      · by_cases hv : validStatus response.status
        · simp [imageGenerate, imageGenerateTry_parsed R _ response text v ha hp, hi,
            respond_valid R _ v hv, hv]
        · simp [imageGenerate, imageGenerateTry_parsed R _ response text v ha hp, hi,
            respond_invalid R _ v hv, hv]
      · simp [imageGenerate, imageGenerateTry_parsed R _ response text v ha hp, hi]
    · intro k hk ha
      simp [search, searchTry_configured R env body k hk,
        searchPrimary_parsed R k body response text v ha hp]
    · intro q hk hq ha
      cases hd : nullish v
      · simp [search, searchTry_absent R env body hk,
          searchFallback_parsed R body q response text v hq ha hp hd]
      · simp [search, searchTry_absent R env body hk,
          searchFallback_nullish R body q response text v hq ha hp hd]
  · intro response text e hp
    refine ⟨?_, ?_, ?_, ?_, ?_, ?_⟩
    · intro ha
      simp [imageGenerate, imageGenerateTry_nonJson R _ response text e ha hp]
    · intro ha
      simp [myqaChatCompletions, myqaChatCompletionsTry_nonJson R _ response text e ha hp]
    · intro ha
      simp [openrouterChatCompletions,
        openrouterChatCompletionsTry_nonJson R _ response text e ha hp]
    · intro k hk ha
      simp [search, searchTry_configured R env body k hk,
        searchPrimary_nonJson R k body response text e ha hp]
    · intro q hk hq ha
      simp [search, searchTry_absent R env body hk,
        searchFallback_nonJson R body q response text e hq ha hp]
    · intro k m ms hk hm ha
      rw [perplexitySearch,
        perplexitySearchTry_nonJson R env body k m ms response text e hk hm ha hp]
      by_cases h0 : response.status = 0
      · have hv : validStatus (statusOr502 response.status) := by
          rw [statusOr502_eq, if_pos h0]
          exact ⟨by decide, by decide⟩
        rw [respond_valid R _ _ hv]
        simp [statusOr502_eq, h0]
      · by_cases hv : validStatus response.status
        · have hv2 : validStatus (statusOr502 response.status) := by
            rw [statusOr502_eq, if_neg h0]
            exact hv
          rw [respond_valid R _ _ hv2]
          simp [statusOr502_eq, h0, hv]
        · have hv2 : ¬ validStatus (statusOr502 response.status) := by
            rw [statusOr502_eq, if_neg h0]
            exact hv
          rw [respond_invalid R _ _ hv2]
          simp [h0, hv]
  · intro e
    refine ⟨?_, ?_, ?_, ?_, ?_, ?_⟩
    · intro h
      simp [imageGenerate, imageGenerateTry_fails R _ e h]
    · intro h
      simp [myqaChatCompletions, myqaChatCompletionsTry_fails R _ e h]
    · intro h
      simp [openrouterChatCompletions, openrouterChatCompletionsTry_fails R _ e h]
    · intro k hk h
      simp [search, searchTry_configured R env body k hk, searchPrimary_fails R k body e h]
    · intro q hk hq h
      simp [search, searchTry_absent R env body hk, searchFallback_fails R body q e hq h]
    · intro k m ms hk hm h
      simp [perplexitySearch, perplexitySearchTry_fails R env body k m ms e hk hm h]
  · intro h
    simp [perplexitySearch, perplexitySearchTry_absent R env body h]
  · intro k hk hm
    simp [perplexitySearch,
      perplexitySearchTry_invalid R env body k hk (invalidMessages_of_shape _ hm)]
  · intro e hk hq
    simp [search, searchTry_absent R env body hk, searchFallback_unencodable R body e hq]

/-- Witness for `reply_status`: an upstream 429 is forwarded as 429 by the
chat route, and an upstream 502 carrying an inline image is answered 200 by
the image route. -/
theorem reply_status_witness :
    (myqaChatCompletions
        (exampleRuntime (.response (exampleResponse 429 rateLimitText))
          [(rateLimitText, rateLimitBody)])
        imageEnv oneMessageBody).reply.status = 429 ∧
    (imageGenerate
        (exampleRuntime (.response (exampleResponse 502 imagePayloadText))
          [(imagePayloadText, imagePayloadBody)])
        imageEnv oneMessageBody).reply.status = 200 :=
  ⟨((reply_status
      (exampleRuntime (.response (exampleResponse 429 rateLimitText))
        [(rateLimitText, rateLimitBody)])
      imageEnv oneMessageBody).1 (exampleResponse 429 rateLimitText) rateLimitText
      rateLimitBody rfl).1 ⟨rfl, rfl⟩,
   ((reply_status
      (exampleRuntime (.response (exampleResponse 502 imagePayloadText))
        [(imagePayloadText, imagePayloadBody)])
      imageEnv oneMessageBody).1 (exampleResponse 502 imagePayloadText) imagePayloadText
      imagePayloadBody rfl).2.2.2.1 ⟨rfl, rfl⟩⟩

/-- C4 (counterexample). Five requests on which the reply status is not the
one the claim fixes. With SERPER_API_KEY configured the search provider
answers 404 with the JSON body `[]` and the reply is 200; the image provider
answers 502 with an inline image and the reply is 200; a Perplexity request
without `messages`, rejected before any outbound call, is answered 400, not
500; a Perplexity upstream that answers 503 with an HTML page, a parse
failure, is answered 503, not 500; and a chat upstream that answers with the
status line `099` and a JSON body, where nothing fails before the reply is
written, is answered 500, not 99. -/
theorem status_neither_upstream_nor_500 :
    ((search (exampleRuntime (.response (exampleResponse 404 "[]")) [("[]", .arr [])])
        searchEnv queryBody).reply = { status := 200, body := .arr [] } ∧
      (search (exampleRuntime (.response (exampleResponse 404 "[]")) [("[]", .arr [])])
        searchEnv queryBody).reply.status ≠ 404 ∧
      (search (exampleRuntime (.response (exampleResponse 404 "[]")) [("[]", .arr [])])
        searchEnv queryBody).reply.status ≠ 500) ∧
    ((imageGenerate
        (exampleRuntime (.response (exampleResponse 502 imagePayloadText))
          [(imagePayloadText, imagePayloadBody)])
        imageEnv (.object [("prompt", .str "a cat")])).reply.status = 200 ∧
      (imageGenerate
        (exampleRuntime (.response (exampleResponse 502 imagePayloadText))
          [(imagePayloadText, imagePayloadBody)])
        imageEnv (.object [("prompt", .str "a cat")])).reply.status ≠ 502 ∧
      (imageGenerate
        (exampleRuntime (.response (exampleResponse 502 imagePayloadText))
          [(imagePayloadText, imagePayloadBody)])
        imageEnv (.object [("prompt", .str "a cat")])).reply.status ≠ 500) ∧
    ((perplexitySearch (exampleRuntime (.response (exampleResponse 200 "[]")) [("[]", .arr [])])
        perplexityEnv queryBody).calls = [] ∧
      (perplexitySearch (exampleRuntime (.response (exampleResponse 200 "[]")) [("[]", .arr [])])
        perplexityEnv queryBody).reply.status = 400 ∧
      (perplexitySearch (exampleRuntime (.response (exampleResponse 200 "[]")) [("[]", .arr [])])
        perplexityEnv queryBody).reply.status ≠ 500) ∧
    ((exampleRuntime (.response htmlResponse) []).jsonParse "<html>down</html>"
        = .error "Unexpected token < in JSON at position 0" ∧
      (perplexitySearch (exampleRuntime (.response htmlResponse) []) perplexityEnv
        oneMessageBody).reply.status = 503 ∧
      (perplexitySearch (exampleRuntime (.response htmlResponse) []) perplexityEnv
        oneMessageBody).reply.status ≠ 500) ∧
    ((myqaChatCompletions
        (exampleRuntime (.response (exampleResponse 99 rateLimitText))
          [(rateLimitText, rateLimitBody)])
        imageEnv oneMessageBody).calls = [myqaChatCompletionsCall imageEnv oneMessageBody] ∧
      (myqaChatCompletions
        (exampleRuntime (.response (exampleResponse 99 rateLimitText))
          [(rateLimitText, rateLimitBody)])
        imageEnv oneMessageBody).reply.status = 500 ∧
      (myqaChatCompletions
        (exampleRuntime (.response (exampleResponse 99 rateLimitText))
          [(rateLimitText, rateLimitBody)])
        imageEnv oneMessageBody).reply.status ≠ 99) := by
  refine ⟨⟨rfl, by decide, by decide⟩, ⟨rfl, by decide, by decide⟩, ⟨rfl, rfl, by decide⟩,
    ⟨rfl, rfl, by decide⟩, ⟨rfl, rfl, by decide⟩⟩

end Relay
